import Mathlib

/-!
Verification development for the parser core of the denjucks template
engine (src/deps/denjucks-1.1.1/src/parser.js).

The JavaScript parser is shallowly embedded as a fuel-indexed,
state-passing interpreter.  The parser state (`PState`) mirrors the
fields set in `Parser.init`; the monad `PM` threads the state and an
`Except`-style error channel.  Crucially, an error carries the state at
the moment of the throw: JavaScript exceptions do not roll back
mutations of `this`, and several properties below depend on exactly
that.

The lexer and the AST node constructors are external collaborators of
the parser (they live in lexer.js / nodes.js, which are not part of the
parser source): tokens are modelled as a list (the lexer's `nextToken`
pops the head), the `tags` record of delimiter strings is carried next
to the list, and the AST is a plain inductive `Node` whose constructors
mirror the `nodes.*` constructor calls made by the parser.
-/

namespace Denjucks

/-- Token types of the lexer (lexer.js is not part of the parser source;
the set of `TOKEN_*` constants is taken from the spec's data model). -/
inductive TokenType where
  | data | blockStart | blockEnd | variableStart | variableEnd | comment
  | symbol | string | int | float | boolean | none | regex | whitespace
  | operator | pipe | tilde | comma | colon
  | leftParen | rightParen | leftBracket | rightBracket | leftCurly | rightCurly
  deriving DecidableEq, Repr

/-- Modelled from the spec: the printable names of the lexer's token-type
constants (used only inside error-message strings). -/
def TokenType.str : TokenType → String
  | .data => "data" | .blockStart => "block-start" | .blockEnd => "block-end"
  | .variableStart => "variable-start" | .variableEnd => "variable-end"
  | .comment => "comment" | .symbol => "symbol" | .string => "string"
  | .int => "int" | .float => "float" | .boolean => "boolean"
  | .none => "none" | .regex => "regex" | .whitespace => "whitespace"
  | .operator => "operator" | .pipe => "pipe" | .tilde => "tilde"
  | .comma => "comma" | .colon => "colon"
  | .leftParen => "left-paren" | .rightParen => "right-paren"
  | .leftBracket => "left-bracket" | .rightBracket => "right-bracket"
  | .leftCurly => "left-curly" | .rightCurly => "right-curly"

/-- A lexer token `{type, value, lineno, colno}`.  The structured
`{body, flags}` value of REGEX tokens is collapsed into the value
string: no claim concerns regex literals. -/
structure Token where
  type : TokenType
  value : String
  lineno : Nat
  colno : Nat
  deriving DecidableEq, Repr

/-- The delimiter strings carried by the lexer (`this.tokens.tags`).
Modelled from the spec: the lexer exposes the literal delimiter strings;
the defaults are the Jinja-style markers. -/
structure Tags where
  VARIABLE_START : String := "\x7b\x7b"
  VARIABLE_END : String := "\x7d\x7d"
  COMMENT_START : String := "\x7b#"
  COMMENT_END : String := "#\x7d"
  deriving DecidableEq, Repr

/-- The token source (`this.tokens`): `nextToken` pops the head of the
list; `tags` rides along for the whitespace-control length arithmetic. -/
structure Tokens where
  list : List Token
  tags : Tags := {}
  deriving DecidableEq, Repr

/-- A registered extension's claimed tag names (`ext.tags`).  The
`parse` hook itself is consumer code outside this repository; invoking
it is recorded as an unmodelled external call (see `parseStatement`). -/
structure Extension where
  tags : List String
  deriving DecidableEq, Repr

/-- Parser state: the fields set in `Parser.init`.  `breakOnBlocks` is
`null` or an array of block names, hence `Option (List String)`. -/
structure PState where
  tokens : Tokens
  peeked : Option Token := Option.none
  breakOnBlocks : Option (List String) := Option.none
  dropLeadingWhitespace : Bool := false
  extensions : List Extension := []
  deriving DecidableEq, Repr

/-- The thrown values of the parser:
* `template msg lineno colno` — `lib.TemplateError` raised by `fail`
  (coordinates already 1-based, `Option.none` when undefined);
* `plain msg` — a bare `new Error(msg)` (thrown by `pushToken`);
* `typeError msg` — a JavaScript runtime TypeError from accessing a
  property of `null`/`undefined`;
* `fuel` — the model artifact for exhausted recursion fuel;
* `unmodelled what` — a call into external code that the token-list
  model does not carry (extension hooks, the raw-scanning regex escape
  hatch into the lexer's character stream). -/
inductive PErr where
  | template (msg : String) (lineno colno : Option Nat)
  | plain (msg : String)
  | typeError (msg : String)
  | fuel
  | unmodelled (what : String)
  deriving DecidableEq, Repr

/-- Whether an error is a `lib.TemplateError`. -/
def PErr.isTemplate : PErr → Bool
  | .template _ _ _ => true
  | _ => false

/-- The parser monad: state passing with an error channel.  The state is
returned even on the error path, because JavaScript exceptions do not
undo mutations of `this`. -/
def PM (α : Type) : Type := PState → Except PErr α × PState

instance : Monad PM where
  pure a := fun s => (.ok a, s)
  bind m f := fun s =>
    match m s with
    | (.ok a, s') => f a s'
    | (.error e, s') => (.error e, s')

def PM.throw (e : PErr) : PM α := fun s => (.error e, s)

def getS : PM PState := fun s => (.ok s, s)

def setS (s : PState) : PM Unit := fun _ => (.ok (), s)

def modifyS (f : PState → PState) : PM Unit := fun s => (.ok (), f s)

/-- JS `String.prototype.charAt`: out-of-range (including negative)
indices give the empty string. -/
def jsCharAt (s : String) (i : Int) : String :=
  if h : 0 ≤ i ∧ i.toNat < s.data.length then
    String.singleton (s.data.get ⟨i.toNat, h.2⟩)
  else ""

/-- The `\s` character class of the `replace` regexes.  ASCII whitespace;
the JS class also has the Unicode space separators, which never occur in
the inputs considered here. -/
def jsIsSpace (c : Char) : Bool :=
  c = ' ' ∨ c = '\t' ∨ c = '\n' ∨ c = '\r' ∨ c = '\x0b' ∨ c = '\x0c'

/-- `data.replace(/^\s*/, '')`. -/
def stripLeadingWs (s : String) : String :=
  ⟨s.data.dropWhile jsIsSpace⟩

/-- `data.replace(/\s*$/, '')`. -/
def stripTrailingWs (s : String) : String :=
  ⟨(s.data.reverse.dropWhile jsIsSpace).reverse⟩

/-- Values carried by `Literal` nodes (JS primitive values produced in
`parsePrimary`).  Floats are kept as their source text (`parseFloat` is
not otherwise observable here); `nan` is the NaN result of `parseInt`
on a digitless string; `regex` keeps the collapsed token value. -/
inductive LitVal where
  | str (s : String)
  | int (n : Int)
  | nan
  | float (raw : String)
  | bool (b : Bool)
  | null
  | regex (v : String)
  deriving DecidableEq, Repr

/-- JS `parseInt(s, 10)`: skip leading whitespace, optional sign, then
leading decimal digits; NaN when there are none. -/
def parseIntJS (s : String) : LitVal :=
  let cs := s.data.dropWhile jsIsSpace
  let (sgn, cs') : Int × List Char :=
    match cs with
    | '-' :: r => (-1, r)
    | '+' :: r => (1, r)
    | _ => (1, cs)
  let ds := cs'.takeWhile Char.isDigit
  if ds.isEmpty then .nan
  else .int (sgn * (ds.foldl (fun a c => a * 10 + (c.toNat - '0'.toNat)) 0 : Nat))

/-- The lexer-popping core of `nextToken` (parser.js:33-39): pop one
token; when `withWhitespace` is false, keep popping past whitespace
tokens. -/
def streamNext (withWhitespace : Bool) : List Token → Option Token × List Token
  | [] => (Option.none, [])
  | t :: rest =>
    if withWhitespace = false ∧ t.type = .whitespace then streamNext withWhitespace rest
    else (some t, rest)

/-- `nextToken(withWhitespace)` (parser.js:19-42).  A buffered
(`peeked`) whitespace token is dropped silently when whitespace is not
requested, falling through to the stream. -/
def nextToken (withWhitespace : Bool) : PM (Option Token) := fun s =>
  match s.peeked with
  | some p =>
    if withWhitespace = false ∧ p.type = .whitespace then
      let (t, rest) := streamNext withWhitespace s.tokens.list
      (.ok t, { s with peeked := Option.none, tokens := { s.tokens with list := rest } })
    else
      (.ok (some p), { s with peeked := Option.none })
  | Option.none =>
    let (t, rest) := streamNext withWhitespace s.tokens.list
    (.ok t, { s with tokens := { s.tokens with list := rest } })

/-- `peekToken()` (parser.js:44-47): `this.peeked = this.peeked ||
this.nextToken(); return this.peeked`. -/
def peekToken : PM (Option Token) := fun s =>
  match s.peeked with
  | some p => (.ok (some p), s)
  | Option.none =>
    match nextToken false s with
    | (.ok t, s') => (.ok t, { s' with peeked := t })
    | (.error e, s') => (.error e, s')

/-- `pushToken(tok)` (parser.js:49-54).  Throws a bare `new Error`
(not a TemplateError) when the one-slot buffer is full; note the
source's wording `... one token on between reads`. -/
def pushToken (tok : Option Token) : PM Unit := fun s =>
  if s.peeked.isSome then
    (.error (.plain "pushToken: can only push one token on between reads"), s)
  else (.ok (), { s with peeked := tok })

/-- `fail(msg, lineno, colno)` (parser.js:56-66).  When either
coordinate is undefined and a token can be peeked, both coordinates are
taken from that token; defined coordinates are then shifted to 1-based. -/
def fail (msg : String) (lineno colno : Option Nat) : PM α := do
  let lc ←
    if lineno.isNone ∨ colno.isNone then do
      match (← peekToken) with
      | some tok => pure (some tok.lineno, some tok.colno)
      | Option.none => pure (lineno, colno)
    else pure (lineno, colno)
  PM.throw (.template msg (lc.1.map (· + 1)) (lc.2.map (· + 1)))

/-- `skip(type)` (parser.js:68-75). -/
def skip (type : TokenType) : PM Bool := do
  let tok ← nextToken false
  match tok with
  | some t =>
    if t.type ≠ type then do
      pushToken tok
      return false
    else return true
  | Option.none => do
    pushToken tok
    return false

/-- `expect(type)` (parser.js:77-85).  On an exhausted stream
`nextToken` yields `null` and the source immediately reads `tok.type`:
a runtime TypeError, not a parser diagnostic. -/
def expect (type : TokenType) : PM Token := do
  let tok ← nextToken false
  match tok with
  | Option.none => PM.throw (.typeError "cannot read type of null")
  | some t =>
    if t.type ≠ type then
      fail ("expected " ++ type.str ++ ", got " ++ t.type.str)
        (some t.lineno) (some t.colno)
    else return t

/-- `skipValue(type, val)` (parser.js:87-94). -/
def skipValue (type : TokenType) (val : String) : PM Bool := do
  let tok ← nextToken false
  match tok with
  | some t =>
    if t.type ≠ type ∨ t.value ≠ val then do
      pushToken tok
      return false
    else return true
  | Option.none => do
    pushToken tok
    return false

/-- `skipSymbol(val)` (parser.js:96-98). -/
def skipSymbol (val : String) : PM Bool :=
  skipValue .symbol val

/-- `advanceAfterBlockEnd(name)` (parser.js:100-129).  Sets the
`dropLeadingWhitespace` latch when the consumed BLOCK_END's value
starts with `-`. -/
def advanceAfterBlockEnd (name : Option String) : PM (Option Token) := do
  let name ←
    match name with
    | some n => pure n
    | Option.none => do
      let tok ← peekToken
      match tok with
      | Option.none => fail "unexpected end of file" Option.none Option.none
      | some t =>
        if t.type ≠ .symbol then
          fail "advanceAfterBlockEnd: expected symbol token or explicit name to be passed"
            Option.none Option.none
        else
          match (← nextToken false) with
          | some t' => pure t'.value
          | Option.none => PM.throw (.typeError "cannot read value of null")
  let tok ← nextToken false
  match tok with
  | some t =>
    if t.type = .blockEnd then do
      let _ ← if jsCharAt t.value 0 = "-" then
          modifyS (fun s => { s with dropLeadingWhitespace := true })
        else pure ()
      return tok
    else fail ("expected block end in " ++ name ++ " statement") Option.none Option.none
  | Option.none => fail ("expected block end in " ++ name ++ " statement") Option.none Option.none

/-- `advanceAfterVariableEnd()` (parser.js:131-142).  The latch is set
iff the character `len(value) - len(tags.VARIABLE_END) - 1` of the
consumed VARIABLE_END's value is `-`. -/
def advanceAfterVariableEnd : PM Unit := do
  let tok ← nextToken false
  match tok with
  | some t =>
    if t.type = .variableEnd then do
      let s ← getS
      let dlw := jsCharAt t.value
        ((t.value.length : Int) - (s.tokens.tags.VARIABLE_END.length : Int) - 1) = "-"
      setS { s with dropLeadingWhitespace := dlw }
    else do
      pushToken tok
      fail "expected variable end" Option.none Option.none
  | Option.none => do
    pushToken tok
    fail "expected variable end" Option.none Option.none

/-- `parseWithContext()` (parser.js:265-286). -/
def parseWithContext : PM (Option Bool) := do
  let tok ← peekToken
  let withContext : Option Bool ←
    if (← skipSymbol "with") then pure (some true)
    else if (← skipSymbol "without") then pure (some false)
    else pure Option.none
  if withContext.isSome then
    if !(← skipSymbol "context") then
      match tok with
      | some t =>
        fail "parseFrom: expected context after with/without" (some t.lineno) (some t.colno)
      | Option.none => PM.throw (.typeError "cannot read lineno of null")
    else pure ()
  return withContext

/-- AST nodes, mirroring the `nodes.*` constructor calls made by the
parser (nodes.js itself is a family of pure data carriers, per the
spec's external-interface contract).  `jsNull` is the JavaScript `null`
(or `undefined`) flowing in a node-valued position: `parseAggregate`
and `parseStatement` return `null`, `parseSignature` may, and absent
`else_`/`value`/`body` fields are `null`/`undefined`.  Node positions
are `(lineno, colno)`; the position of the argument-less
`new nodes.NodeList()` / `new nodes.KeywordArgs()` calls (JS
`undefined`) is collapsed to `(0, 0)`. -/
inductive Node where
  | jsNull
  | Root (lineno colno : Nat) (children : List Node)
  | NodeList (lineno colno : Nat) (children : List Node)
  | Output (lineno colno : Nat) (children : List Node)
  | TemplateData (lineno colno : Nat) (value : String)
  | Literal (lineno colno : Nat) (value : LitVal)
  | Symbol (lineno colno : Nat) (value : String)
  | Array (lineno colno : Nat) (children : List Node)
  | Group (lineno colno : Nat) (children : List Node)
  | Dict (lineno colno : Nat) (children : List Node)
  | Pair (lineno colno : Nat) (key value : Node)
  | KeywordArgs (lineno colno : Nat) (children : List Node)
  | FunCall (lineno colno : Nat) (name args : Node)
  | Filter (lineno colno : Nat) (name args : Node)
  | LookupVal (lineno colno : Nat) (target val : Node)
  | If (lineno colno : Nat) (cond body else_ : Node)
  | IfAsync (lineno colno : Nat) (cond body else_ : Node)
  | InlineIf (lineno colno : Nat) (body cond else_ : Node)
  | For (lineno colno : Nat) (name arr body else_ : Node)
  | AsyncEach (lineno colno : Nat) (name arr body else_ : Node)
  | AsyncAll (lineno colno : Nat) (name arr body else_ : Node)
  | Macro (lineno colno : Nat) (name args body : Node)
  | Caller (lineno colno : Nat) (name args body : Node)
  | Import (lineno colno : Nat) (template target : Node) (withContext : Option Bool)
  | FromImport (lineno colno : Nat) (template names : Node) (withContext : Option Bool)
  | Block (lineno colno : Nat) (name body : Node)
  | Extends (lineno colno : Nat) (template : Node)
  | Include (lineno colno : Nat) (template : Node) (ignoreMissing : Bool)
  | Set (lineno colno : Nat) (targets : List Node) (value body : Node)
  | Capture (lineno colno : Nat) (body : Node)
  | Compare (lineno colno : Nat) (expr : Node) (ops : List Node)
  | CompareOperand (lineno colno : Nat) (expr : Node) (cmp : String)
  | And (lineno colno : Nat) (left right : Node)
  | Or (lineno colno : Nat) (left right : Node)
  | In (lineno colno : Nat) (left right : Node)
  | Add (lineno colno : Nat) (left right : Node)
  | Sub (lineno colno : Nat) (left right : Node)
  | Mul (lineno colno : Nat) (left right : Node)
  | Div (lineno colno : Nat) (left right : Node)
  | FloorDiv (lineno colno : Nat) (left right : Node)
  | Mod (lineno colno : Nat) (left right : Node)
  | Pow (lineno colno : Nat) (left right : Node)
  | Concat (lineno colno : Nat) (left right : Node)
  | Not (lineno colno : Nat) (target : Node)
  | Neg (lineno colno : Nat) (target : Node)
  | Pos (lineno colno : Nat) (target : Node)
  deriving Repr

/-- The `(lineno, colno)` of a node (every `nodes.*` object carries
them).  `jsNull` has no position; reading it would be a JS TypeError
and is unreachable in the paths exercised here, so it answers `(0,0)`. -/
def Node.pos : Node → Nat × Nat
  | .jsNull => (0, 0)
  | .Root l c _ | .NodeList l c _ | .Output l c _ | .Array l c _
  | .Group l c _ | .Dict l c _ | .KeywordArgs l c _ => (l, c)
  | .TemplateData l c _ | .Literal l c _ | .Symbol l c _ => (l, c)
  | .Pair l c _ _ | .FunCall l c _ _ | .Filter l c _ _ | .LookupVal l c _ _ => (l, c)
  | .If l c _ _ _ | .IfAsync l c _ _ _ | .InlineIf l c _ _ _ => (l, c)
  | .For l c _ _ _ _ | .AsyncEach l c _ _ _ _ | .AsyncAll l c _ _ _ _ => (l, c)
  | .Macro l c _ _ _ | .Caller l c _ _ _ => (l, c)
  | .Import l c _ _ _ | .FromImport l c _ _ _ => (l, c)
  | .Block l c _ _ | .Extends l c _ | .Include l c _ _ => (l, c)
  | .Set l c _ _ _ | .Capture l c _ => (l, c)
  | .Compare l c _ _ | .CompareOperand l c _ _ => (l, c)
  | .And l c _ _ | .Or l c _ _ | .In l c _ _ | .Add l c _ _ | .Sub l c _ _
  | .Mul l c _ _ | .Div l c _ _ | .FloorDiv l c _ _ | .Mod l c _ _
  | .Pow l c _ _ | .Concat l c _ _ => (l, c)
  | .Not l c _ | .Neg l c _ | .Pos l c _ => (l, c)

def Node.lineno (n : Node) : Nat := n.pos.1

def Node.colno (n : Node) : Nat := n.pos.2

/-- The ordered `children` collection of the list-carrying variants
(the only ones on which the parser reads `.children`). -/
def Node.children : Node → List Node
  | .Root _ _ cs | .NodeList _ _ cs | .Output _ _ cs | .Array _ _ cs
  | .Group _ _ cs | .Dict _ _ cs | .KeywordArgs _ _ cs => cs
  | _ => []

/-- JS falsiness of a node-valued variable (`null`/`undefined`). -/
def Node.isNull : Node → Bool
  | .jsNull => true
  | _ => false

def isKeywordArgs : Node → Bool
  | .KeywordArgs _ _ _ => true
  | _ => false

/-- The caller-kwarg grafting of `parseCall` (parser.js:249-258): if the
last element of the call's argument children is not a `KeywordArgs`, an
empty argument-less one is pushed; the pair is then appended to that
last `KeywordArgs`. -/
def pushCallerPair (children : List Node) (pair : Node) : List Node :=
  let cs :=
    if (children.getLast?.map isKeywordArgs).getD false then children
    else children ++ [Node.KeywordArgs 0 0 []]
  match cs.getLast? with
  | some (Node.KeywordArgs l c kch) => cs.dropLast ++ [Node.KeywordArgs l c (kch ++ [pair])]
  | _ => cs

/-- The result assembly of `parseSignature` (parser.js:1144-1186): the
`NodeList` of positional arguments, with the `KeywordArgs` node appended
when any keyword pair was collected. -/
def signatureResult (openTok : Token) (argsCh kwargsCh : List Node) : Node :=
  Node.NodeList openTok.lineno openTok.colno
    (if kwargsCh.length ≠ 0 then
      argsCh ++ [Node.KeywordArgs openTok.lineno openTok.colno kwargsCh]
    else argsCh)

/-- The trailing-whitespace-strip condition of `parseNodes`
(parser.js:1219-1227): the upcoming token is a BLOCK_START ending in
`-`, or a VARIABLE_START/COMMENT whose character right after the
opening marker is `-`. -/
def dropTrailingMarker (nextTokenO : Option Token) (tags : Tags) : Bool :=
  match nextTokenO with
  | Option.none => false
  | some nt =>
    let nextVal := nt.value
    (nt.type == .blockStart && jsCharAt nextVal ((nextVal.length : Int) - 1) == "-") ||
    (nt.type == .variableStart && jsCharAt nextVal (tags.VARIABLE_START.length : Int) == "-") ||
    (nt.type == .comment && jsCharAt nextVal (tags.COMMENT_START.length : Int) == "-")

/-- `compareOps` of `parseCompare` (parser.js:774). -/
def compareOps : List String := ["==", "===", "!=", "!==", "<", ">", "<=", ">="]

/-- Which aggregate is being collected in `parseAggregate`. -/
inductive AggKind where
  | group | arr | dict
  deriving DecidableEq, Repr

/-- Which node `parseIf` builds (`If` vs `IfAsync`). -/
inductive IfKind where
  | plain | async
  deriving DecidableEq, Repr

/-- Which node `parseFor` builds. -/
inductive ForKind where
  | for_ | asyncEach | asyncAll
  deriving DecidableEq, Repr

/-!
The mutually recursive parsing routines (parser.js:144-1273) form an
open recursion knot: `Parsers` bundles one entry per routine,
`parserStep` ties each routine to the bundle of its callees, and
`parsersAt fuel` iterates the step from a bottom bundle whose every
entry raises the model-artifact error `PErr.fuel`.  The fuel therefore
bounds the call depth; it is ample (and unreachable) in the concrete
runs below.  JS `while` loops become tail-recursive `...Loop` entries
carrying the loop's mutable locals.  Each `...F` definition is the
transcription of one source routine; the fuel-indexed wrappers at the
end give them their source names.
-/

structure Parsers where
  parseExpression : PM Node
  parseInlineIf : PM Node
  parseOr : PM Node
  parseOrLoop : Node → PM Node
  parseAnd : PM Node
  parseAndLoop : Node → PM Node
  parseNot : PM Node
  parseIn : PM Node
  parseInLoop : Node → PM Node
  parseCompare : PM Node
  parseCompareLoop : List Node → PM (List Node)
  parseConcat : PM Node
  parseConcatLoop : Node → PM Node
  parseAdd : PM Node
  parseAddLoop : Node → PM Node
  parseSub : PM Node
  parseSubLoop : Node → PM Node
  parseMul : PM Node
  parseMulLoop : Node → PM Node
  parseDiv : PM Node
  parseDivLoop : Node → PM Node
  parseFloorDiv : PM Node
  parseFloorDivLoop : Node → PM Node
  parseMod : PM Node
  parseModLoop : Node → PM Node
  parsePow : PM Node
  parsePowLoop : Node → PM Node
  parseUnary : Bool → PM Node
  parsePrimary : Bool → PM Node
  parsePostfix : Node → PM Node
  parseAggregate : PM Node
  parseAggregateLoop : Token → AggKind → List Node → PM (List Node)
  parseSignature : Bool → Bool → PM Node
  parseSignatureLoop : Bool → Token → List Node → List Node → Bool → PM Node
  parseFilterName : PM Node
  parseFilterNameLoop : String → PM String
  parseFilterArgs : Node → PM (List Node)
  parseFilter : Node → PM Node
  parseFilterStatement : PM Node
  parseStatement : PM Node
  parseRaw : Option String → PM Node
  parseIf : PM Node
  parseFor : PM Node
  parseForLoop : List Node → PM (List Node)
  parseMacro : PM Node
  parseCall : PM Node
  parseImport : PM Node
  parseFrom : PM Node
  parseFromLoop : Token → List Node → Option Bool → PM (List Node × Option Bool)
  parseBlock : PM Node
  parseExtends : PM Node
  parseInclude : PM Node
  parseSet : PM Node
  parseSetLoop : List Node → PM (List Node)
  parseUntilBlocks : List String → PM Node
  parse : PM Node
  parseNodes : PM (List Node)

/-- `parseExpression()` (parser.js:686-689). -/
def parseExpressionF (p : Parsers) : PM Node := p.parseInlineIf

/-- `parseInlineIf()` (parser.js:691-707). -/
def parseInlineIfF (p : Parsers) : PM Node := do
  let node ← p.parseOr
  if (← skipSymbol "if") then do
    let condNode ← p.parseOr
    let bodyNode := node
    let else_ ← if (← skipSymbol "else") then p.parseOr else pure Node.jsNull
    return Node.InlineIf node.lineno node.colno bodyNode condNode else_
  else return node

/-- `parseOr()` (parser.js:709-719). -/
def parseOrF (p : Parsers) : PM Node := do
  let node ← p.parseAnd
  p.parseOrLoop node

/-- The `while(skipSymbol('or'))` loop of `parseOr`. -/
def parseOrLoopF (p : Parsers) (node : Node) : PM Node := do
  if (← skipSymbol "or") then do
    let node2 ← p.parseAnd
    p.parseOrLoop (Node.Or node.lineno node.colno node node2)
  else return node

/-- `parseAnd()` (parser.js:721-731). -/
def parseAndF (p : Parsers) : PM Node := do
  let node ← p.parseNot
  p.parseAndLoop node

/-- The `while(skipSymbol('and'))` loop of `parseAnd`. -/
def parseAndLoopF (p : Parsers) (node : Node) : PM Node := do
  if (← skipSymbol "and") then do
    let node2 ← p.parseNot
    p.parseAndLoop (Node.And node.lineno node.colno node node2)
  else return node

/-- `parseNot()` (parser.js:733-741). -/
def parseNotF (p : Parsers) : PM Node := do
  let tokO ← peekToken
  if (← skipSymbol "not") then
    match tokO with
    | some tok => do
      let inner ← p.parseNot
      return Node.Not tok.lineno tok.colno inner
    | Option.none => PM.throw (.typeError "cannot read lineno of null")
  else p.parseIn

/-- `parseIn()` (parser.js:743-771). -/
def parseInF (p : Parsers) : PM Node := do
  let node ← p.parseCompare
  p.parseInLoop node

/-- The `while(1)` loop of `parseIn`.  Note the faithful pushback
discipline: after a failed `skipSymbol('in')` the slot already holds
the non-`in` token, so re-pushing a pending `not` throws. -/
def parseInLoopF (p : Parsers) (node : Node) : PM Node := do
  let tokO ← nextToken false
  match tokO with
  | Option.none => return node
  | some tok => do
    let invert := tok.type == .symbol && tok.value == "not"
    if invert = false then pushToken (some tok) else pure ()
    if (← skipSymbol "in") then do
      let node2 ← p.parseCompare
      let node := Node.In node.lineno node.colno node node2
      let node := if invert then Node.Not node.lineno node.colno node else node
      p.parseInLoop node
    else do
      if invert then pushToken (some tok) else pure ()
      return node

/-- `parseCompare()` (parser.js:773-805). -/
def parseCompareF (p : Parsers) : PM Node := do
  let expr ← p.parseConcat
  let ops ← p.parseCompareLoop []
  match ops with
  | [] => return expr
  | op0 :: _ => return Node.Compare op0.lineno op0.colno expr ops

/-- The operand-collecting `while(1)` loop of `parseCompare`. -/
def parseCompareLoopF (p : Parsers) (ops : List Node) : PM (List Node) := do
  let tokO ← nextToken false
  match tokO with
  | Option.none => return ops
  | some tok =>
    if compareOps.contains tok.value then do
      let operand ← p.parseConcat
      p.parseCompareLoop
        (ops ++ [Node.CompareOperand tok.lineno tok.colno operand tok.value])
    else do
      pushToken (some tok)
      return ops

/-- `parseConcat()` (parser.js:808-818). -/
def parseConcatF (p : Parsers) : PM Node := do
  let node ← p.parseAdd
  p.parseConcatLoop node

/-- The `while(skipValue(TILDE, '~'))` loop of `parseConcat`. -/
def parseConcatLoopF (p : Parsers) (node : Node) : PM Node := do
  if (← skipValue .tilde "~") then do
    let node2 ← p.parseAdd
    p.parseConcatLoop (Node.Concat node.lineno node.colno node node2)
  else return node

/-- `parseAdd()` (parser.js:820-830).  Its operands come from
`parseSub`: `+` and `-` sit on separate precedence levels. -/
def parseAddF (p : Parsers) : PM Node := do
  let node ← p.parseSub
  p.parseAddLoop node

/-- The `while(skipValue(OPERATOR, '+'))` loop of `parseAdd`. -/
def parseAddLoopF (p : Parsers) (node : Node) : PM Node := do
  if (← skipValue .operator "+") then do
    let node2 ← p.parseSub
    p.parseAddLoop (Node.Add node.lineno node.colno node node2)
  else return node

/-- `parseSub()` (parser.js:832-842). -/
def parseSubF (p : Parsers) : PM Node := do
  let node ← p.parseMul
  p.parseSubLoop node

/-- The `while(skipValue(OPERATOR, '-'))` loop of `parseSub`. -/
def parseSubLoopF (p : Parsers) (node : Node) : PM Node := do
  if (← skipValue .operator "-") then do
    let node2 ← p.parseMul
    p.parseSubLoop (Node.Sub node.lineno node.colno node node2)
  else return node

/-- `parseMul()` (parser.js:844-854). -/
def parseMulF (p : Parsers) : PM Node := do
  let node ← p.parseDiv
  p.parseMulLoop node

/-- The `while(skipValue(OPERATOR, '*'))` loop of `parseMul`. -/
def parseMulLoopF (p : Parsers) (node : Node) : PM Node := do
  if (← skipValue .operator "*") then do
    let node2 ← p.parseDiv
    p.parseMulLoop (Node.Mul node.lineno node.colno node node2)
  else return node

/-- `parseDiv()` (parser.js:856-866). -/
def parseDivF (p : Parsers) : PM Node := do
  let node ← p.parseFloorDiv
  p.parseDivLoop node

/-- The `while(skipValue(OPERATOR, '/'))` loop of `parseDiv`. -/
def parseDivLoopF (p : Parsers) (node : Node) : PM Node := do
  if (← skipValue .operator "/") then do
    let node2 ← p.parseFloorDiv
    p.parseDivLoop (Node.Div node.lineno node.colno node node2)
  else return node

/-- `parseFloorDiv()` (parser.js:868-878). -/
def parseFloorDivF (p : Parsers) : PM Node := do
  let node ← p.parseMod
  p.parseFloorDivLoop node

/-- The `while(skipValue(OPERATOR, '//'))` loop of `parseFloorDiv`. -/
def parseFloorDivLoopF (p : Parsers) (node : Node) : PM Node := do
  if (← skipValue .operator "//") then do
    let node2 ← p.parseMod
    p.parseFloorDivLoop (Node.FloorDiv node.lineno node.colno node node2)
  else return node

/-- `parseMod()` (parser.js:880-890). -/
def parseModF (p : Parsers) : PM Node := do
  let node ← p.parsePow
  p.parseModLoop node

/-- The `while(skipValue(OPERATOR, '%'))` loop of `parseMod`. -/
def parseModLoopF (p : Parsers) (node : Node) : PM Node := do
  if (← skipValue .operator "%") then do
    let node2 ← p.parsePow
    p.parseModLoop (Node.Mod node.lineno node.colno node node2)
  else return node

/-- `parsePow()` (parser.js:892-902): a left-associative loop like the
other levels. -/
def parsePowF (p : Parsers) : PM Node := do
  let node ← p.parseUnary false
  p.parsePowLoop node

/-- The `while(skipValue(OPERATOR, '**'))` loop of `parsePow`. -/
def parsePowLoopF (p : Parsers) (node : Node) : PM Node := do
  if (← skipValue .operator "**") then do
    let node2 ← p.parseUnary false
    p.parsePowLoop (Node.Pow node.lineno node.colno node node2)
  else return node

/-- `parseUnary(noFilters)` (parser.js:904-927). -/
def parseUnaryF (p : Parsers) (noFilters : Bool) : PM Node := do
  let tokO ← peekToken
  let node ←
    if (← skipValue .operator "-") then
      match tokO with
      | some tok => do
        let inner ← p.parseUnary true
        pure (Node.Neg tok.lineno tok.colno inner)
      | Option.none => PM.throw (.typeError "cannot read lineno of null")
    else if (← skipValue .operator "+") then
      match tokO with
      | some tok => do
        let inner ← p.parseUnary true
        pure (Node.Pos tok.lineno tok.colno inner)
      | Option.none => PM.throw (.typeError "cannot read lineno of null")
    else p.parsePrimary false
  if noFilters = false then p.parseFilter node
  else return node

/-- `parsePrimary(noPostfix)` (parser.js:929-991). -/
def parsePrimaryF (p : Parsers) (noPostfixArg : Bool) : PM Node := do
  let tokO ← nextToken false
  match tokO with
  | Option.none => fail "expected expression, got end of file" Option.none Option.none
  | some tok => do
    let val : Option LitVal ←
      if tok.type = .string then pure (some (.str tok.value))
      else if tok.type = .int then pure (some (parseIntJS tok.value))
      else if tok.type = .float then pure (some (.float tok.value))
      else if tok.type = .boolean then
        if tok.value = "true" then pure (some (.bool true))
        else if tok.value = "false" then pure (some (.bool false))
        else fail ("invalid boolean: " ++ tok.value) (some tok.lineno) (some tok.colno)
      else if tok.type = .none then pure (some .null)
      else if tok.type = .regex then pure (some (.regex tok.value))
      else pure Option.none
    let node ←
      match val with
      | some v => pure (Node.Literal tok.lineno tok.colno v)
      | Option.none =>
        if tok.type = .symbol then pure (Node.Symbol tok.lineno tok.colno tok.value)
        else do
          pushToken (some tok)
          p.parseAggregate
    let node ← if noPostfixArg = false then p.parsePostfix node else pure node
    if node.isNull = false then return node
    else fail ("unexpected token: " ++ tok.value) (some tok.lineno) (some tok.colno)

/-- `parsePostfix(node)` (parser.js:631-684): the `while(tok)` loop is
the function itself. -/
def parsePostfixF (p : Parsers) (node : Node) : PM Node := do
  let tokO ← peekToken
  match tokO with
  | Option.none => return node
  | some tok =>
    if tok.type = .leftParen then do
      let sig ← p.parseSignature false false
      p.parsePostfix (Node.FunCall tok.lineno tok.colno node sig)
    else if tok.type = .leftBracket then do
      let lookup ← p.parseAggregate
      if lookup.children.length > 1 then
        fail "invalid index" Option.none Option.none
      else
        p.parsePostfix (Node.LookupVal tok.lineno tok.colno node
          ((lookup.children.head?).getD Node.jsNull))
    else if tok.type = .operator ∧ tok.value = "." then do
      let _ ← nextToken false
      let valO ← nextToken false
      match valO with
      | Option.none => PM.throw (.typeError "cannot read type of null")
      | some val =>
        if val.type ≠ .symbol then
          fail ("expected name as lookup value, got " ++ val.value)
            (some val.lineno) (some val.colno)
        else
          let lookup := Node.Literal val.lineno val.colno (.str val.value)
          p.parsePostfix (Node.LookupVal tok.lineno tok.colno node lookup)
    else return node

/-- `parseAggregate()` (parser.js:1068-1127).  On a non-delimiter first
token it returns `null` with that token consumed. -/
def parseAggregateF (p : Parsers) : PM Node := do
  let tokO ← nextToken false
  match tokO with
  | Option.none => PM.throw (.typeError "cannot read type of null")
  | some tok => do
    let kind : Option AggKind :=
      match tok.type with
      | .leftParen => some .group
      | .leftBracket => some .arr
      | .leftCurly => some .dict
      | _ => Option.none
    match kind with
    | Option.none => return Node.jsNull
    | some k => do
      let children ← p.parseAggregateLoop tok k []
      return (match k with
        | .group => Node.Group tok.lineno tok.colno children
        | .arr => Node.Array tok.lineno tok.colno children
        | .dict => Node.Dict tok.lineno tok.colno children)

/-- The element-collecting `while(1)` loop of `parseAggregate`. -/
def parseAggregateLoopF (p : Parsers) (tok : Token) (k : AggKind)
    (children : List Node) : PM (List Node) := do
  let pk ← peekToken
  match pk with
  | Option.none => PM.throw (.typeError "cannot read type of null")
  | some pt => do
    if pt.type = .rightParen ∨ pt.type = .rightBracket ∨ pt.type = .rightCurly then do
      let _ ← nextToken false
      return children
    else do
      let commaFail ← if children.length > 0 then pure (!(← skip .comma)) else pure false
      if commaFail then
        fail "parseAggregate: expected comma after expression"
          (some tok.lineno) (some tok.colno)
      else
        match k with
        | .dict => do
          let key ← p.parsePrimary false
          if !(← skip .colon) then
            fail "parseAggregate: expected colon after dict key"
              (some tok.lineno) (some tok.colno)
          else do
            let value ← p.parseExpression
            p.parseAggregateLoop tok k
              (children ++ [Node.Pair key.lineno key.colno key value])
        | _ => do
          let expr ← p.parseExpression
          p.parseAggregateLoop tok k (children ++ [expr])

/-- `parseSignature(tolerant, noParens)` (parser.js:1129-1187). -/
def parseSignatureF (p : Parsers) (tolerant noParens : Bool) : PM Node := do
  let tokO ← peekToken
  match tokO with
  | Option.none => PM.throw (.typeError "cannot read type of null")
  | some tok => do
    if noParens = false ∧ tok.type ≠ .leftParen then
      if tolerant then return Node.jsNull
      else fail "expected arguments" (some tok.lineno) (some tok.colno)
    else do
      let tok ←
        if tok.type = .leftParen then do
          match (← nextToken false) with
          | some t => pure t
          | Option.none => PM.throw (.typeError "cannot read lineno of null")
        else pure tok
      p.parseSignatureLoop noParens tok [] [] false

/-- The argument-collecting `while(1)` loop of `parseSignature`. -/
def parseSignatureLoopF (p : Parsers) (noParens : Bool) (openTok : Token)
    (argsCh kwargsCh : List Node) (checkComma : Bool) : PM Node := do
  let tokO ← peekToken
  match tokO with
  | Option.none => PM.throw (.typeError "cannot read type of null")
  | some tok =>
    if noParens = false ∧ tok.type = .rightParen then do
      let _ ← nextToken false
      return signatureResult openTok argsCh kwargsCh
    else if noParens = true ∧ tok.type = .blockEnd then
      return signatureResult openTok argsCh kwargsCh
    else do
      let commaFail ← if checkComma then pure (!(← skip .comma)) else pure false
      if commaFail then
        fail "parseSignature: expected comma after expression"
          (some tok.lineno) (some tok.colno)
      else do
        let arg ← p.parseExpression
        if (← skipValue .operator "=") then do
          let v ← p.parseExpression
          p.parseSignatureLoop noParens openTok argsCh
            (kwargsCh ++ [Node.Pair arg.lineno arg.colno arg v]) true
        else
          p.parseSignatureLoop noParens openTok (argsCh ++ [arg]) kwargsCh true

/-- `parseFilterName()` (parser.js:993-1002). -/
def parseFilterNameF (p : Parsers) : PM Node := do
  let tok ← expect .symbol
  let name ← p.parseFilterNameLoop tok.value
  return Node.Symbol tok.lineno tok.colno name

/-- The dotted-name `while` loop of `parseFilterName`. -/
def parseFilterNameLoopF (p : Parsers) (name : String) : PM String := do
  if (← skipValue .operator ".") then do
    let t ← expect .symbol
    p.parseFilterNameLoop (name ++ "." ++ t.value)
  else return name

/-- `parseFilterArgs(node)` (parser.js:1004-1012). -/
def parseFilterArgsF (p : Parsers) (node : Node) : PM (List Node) := do
  let pk ← peekToken
  match pk with
  | Option.none => PM.throw (.typeError "cannot read type of null")
  | some pt =>
    if pt.type = .leftParen then do
      let call ← p.parsePostfix node
      match call with
      | Node.FunCall _ _ _ args => return args.children
      | _ => PM.throw (.typeError "cannot read children of undefined")
    else return []

/-- `parseFilter(node)` (parser.js:1014-1031): the `while(skip(PIPE))`
loop is the function itself. -/
def parseFilterF (p : Parsers) (node : Node) : PM Node := do
  if (← skip .pipe) then do
    let name ← p.parseFilterName
    let fargs ← p.parseFilterArgs node
    p.parseFilter (Node.Filter name.lineno name.colno name
      (Node.NodeList name.lineno name.colno ([node] ++ fargs)))
  else return node

/-- `parseFilterStatement()` (parser.js:1033-1066). -/
def parseFilterStatementF (p : Parsers) : PM Node := do
  let filterTokO ← peekToken
  if !(← skipSymbol "filter") then
    fail "parseFilterStatement: expected filter" Option.none Option.none
  else
    match filterTokO with
    | Option.none => PM.throw (.typeError "cannot read value of null")
    | some filterTok => do
      let name ← p.parseFilterName
      let args ← p.parseFilterArgs name
      let _ ← advanceAfterBlockEnd (some filterTok.value)
      let inner ← p.parseUntilBlocks ["endfilter"]
      let body := Node.Capture name.lineno name.colno inner
      let _ ← advanceAfterBlockEnd Option.none
      let node := Node.Filter name.lineno name.colno name
        (Node.NodeList name.lineno name.colno ([body] ++ args))
      return Node.Output name.lineno name.colno [node]

/-- `parseStatement()` (parser.js:539-584).  A first symbol listed in
`breakOnBlocks` yields `null` (the stop signal); an unknown tag is
matched against the registered extensions' tag sets, whose `parse`
hooks are external consumer code and surface as `PErr.unmodelled`. -/
def parseStatementF (p : Parsers) : PM Node := do
  let tokO ← peekToken
  match tokO with
  | Option.none => PM.throw (.typeError "cannot read type of null")
  | some tok => do
    if tok.type ≠ .symbol then
      fail "tag name expected" (some tok.lineno) (some tok.colno)
    else do
      let s ← getS
      let isBreak :=
        match s.breakOnBlocks with
        | some blocks => blocks.contains tok.value
        | Option.none => false
      if isBreak then return Node.jsNull
      else
        match tok.value with
        | "raw" => p.parseRaw Option.none
        | "verbatim" => p.parseRaw (some "verbatim")
        | "if" => p.parseIf
        | "ifAsync" => p.parseIf
        | "for" => p.parseFor
        | "asyncEach" => p.parseFor
        | "asyncAll" => p.parseFor
        | "block" => p.parseBlock
        | "extends" => p.parseExtends
        | "include" => p.parseInclude
        | "set" => p.parseSet
        | "macro" => p.parseMacro
        | "call" => p.parseCall
        | "import" => p.parseImport
        | "from" => p.parseFrom
        | "filter" => p.parseFilterStatement
        | _ =>
          match s.extensions.find? (fun ext => ext.tags.contains tok.value) with
          | some _ => PM.throw (.unmodelled "extension parse hook")
          | Option.none =>
            fail ("unknown block tag: " ++ tok.value) (some tok.lineno) (some tok.colno)

/-- `parseRaw(tagName)` (parser.js:586-629).  After consuming the
opening block end, the source scans the lexer's remaining character
stream via `_extractRegex`/`backN` — an escape hatch the token-list
lexer model does not carry, so the scan surfaces as `PErr.unmodelled`.
No claim concerns `raw`/`verbatim` blocks. -/
def parseRawF (p : Parsers) (tagName : Option String) : PM Node :=
  have _ := p
  have _ := tagName.getD "raw"
  do
    let _ ← advanceAfterBlockEnd Option.none
    PM.throw (.unmodelled "parseRaw: lexer character-stream scanning")

/-- `parseIf()` (parser.js:454-496). -/
def parseIfF (p : Parsers) : PM Node := do
  let tagO ← peekToken
  let c1 ← skipSymbol "if"
  let c2 ← if c1 then pure true else skipSymbol "elif"
  let c3 ← if c2 then pure true else skipSymbol "elseif"
  let kind : IfKind ←
    if c3 then pure IfKind.plain
    else if (← skipSymbol "ifAsync") then pure IfKind.async
    else
      match tagO with
      | some tag => fail "parseIf: expected if, elif, or elseif" (some tag.lineno) (some tag.colno)
      | Option.none => PM.throw (.typeError "cannot read lineno of null")
  match tagO with
  | Option.none => PM.throw (.typeError "cannot read lineno of null")
  | some tag => do
    let cond ← p.parseExpression
    let _ ← advanceAfterBlockEnd (some tag.value)
    let body ← p.parseUntilBlocks ["elif", "elseif", "else", "endif"]
    let tokO ← peekToken
    let else_ ←
      match tokO.map (·.value) with
      | some "elseif" => p.parseIf
      | some "elif" => p.parseIf
      | some "else" => do
        let _ ← advanceAfterBlockEnd Option.none
        let e ← p.parseUntilBlocks ["endif"]
        let _ ← advanceAfterBlockEnd Option.none
        pure e
      | some "endif" => do
        let _ ← advanceAfterBlockEnd Option.none
        pure Node.jsNull
      | _ => fail "parseIf: expected elif, else, or endif, got end of file" Option.none Option.none
    return (match kind with
      | .plain => Node.If tag.lineno tag.colno cond body else_
      | .async => Node.IfAsync tag.lineno tag.colno cond body else_)

/-- `parseFor()` (parser.js:144-203).  Only the first loop target is
checked to be a `Symbol`; targets after a comma are arbitrary
primaries. -/
def parseForF (p : Parsers) : PM Node := do
  let forTokO ← peekToken
  let cFor ← skipSymbol "for"
  let cEach ← if cFor then pure false else skipSymbol "asyncEach"
  let cAll ← if cFor ∨ cEach then pure false else skipSymbol "asyncAll"
  match forTokO with
  | Option.none => PM.throw (.typeError "cannot read lineno of null")
  | some forTok => do
    let ke : ForKind × String ←
      if cFor then pure (ForKind.for_, "endfor")
      else if cEach then pure (ForKind.asyncEach, "endeach")
      else if cAll then pure (ForKind.asyncAll, "endall")
      else fail "parseFor: expected for\x7bAsync\x7d" (some forTok.lineno) (some forTok.colno)
    let name ← p.parsePrimary false
    let isSym := match name with | Node.Symbol _ _ _ => true | _ => false
    if isSym = false then
      fail "parseFor: variable name expected for loop" Option.none Option.none
    else do
      let pk ← peekToken
      match pk with
      | Option.none => PM.throw (.typeError "cannot read type of null")
      | some pt => do
        let name ←
          if pt.type = .comma then do
            let children ← p.parseForLoop [name]
            pure (Node.Array name.lineno name.colno children)
          else pure name
        if !(← skipSymbol "in") then
          fail "parseFor: expected \"in\" keyword for loop"
            (some forTok.lineno) (some forTok.colno)
        else do
          let arr ← p.parseExpression
          let _ ← advanceAfterBlockEnd (some forTok.value)
          let body ← p.parseUntilBlocks [ke.2, "else"]
          let else_ ←
            if (← skipSymbol "else") then do
              let _ ← advanceAfterBlockEnd (some "else")
              p.parseUntilBlocks [ke.2]
            else pure Node.jsNull
          let _ ← advanceAfterBlockEnd Option.none
          return (match ke.1 with
            | .for_ => Node.For forTok.lineno forTok.colno name arr body else_
            | .asyncEach => Node.AsyncEach forTok.lineno forTok.colno name arr body else_
            | .asyncAll => Node.AsyncAll forTok.lineno forTok.colno name arr body else_)

/-- The `while(skip(COMMA))` target loop of `parseFor` (no `Symbol`
check on the later targets). -/
def parseForLoopF (p : Parsers) (acc : List Node) : PM (List Node) := do
  if (← skip .comma) then do
    let prim ← p.parsePrimary false
    p.parseForLoop (acc ++ [prim])
  else return acc

/-- `parseMacro()` (parser.js:205-223). -/
def parseMacroF (p : Parsers) : PM Node := do
  let macroTokO ← peekToken
  if !(← skipSymbol "macro") then
    fail "expected macro" Option.none Option.none
  else
    match macroTokO with
    | Option.none => PM.throw (.typeError "cannot read lineno of null")
    | some macroTok => do
      let name ← p.parsePrimary true
      let args ← p.parseSignature false false
      let _ ← advanceAfterBlockEnd (some macroTok.value)
      let body ← p.parseUntilBlocks ["endmacro"]
      let _ ← advanceAfterBlockEnd Option.none
      return Node.Macro macroTok.lineno macroTok.colno name args body

/-- `parseCall()` (parser.js:225-263). -/
def parseCallF (p : Parsers) : PM Node := do
  let callTokO ← peekToken
  if !(← skipSymbol "call") then
    fail "expected call" Option.none Option.none
  else
    match callTokO with
    | Option.none => PM.throw (.typeError "cannot read lineno of null")
    | some callTok => do
      let sigR ← p.parseSignature true false
      let callerArgs := if sigR.isNull then Node.NodeList 0 0 [] else sigR
      let macroCall ← p.parsePrimary false
      let _ ← advanceAfterBlockEnd (some callTok.value)
      let body ← p.parseUntilBlocks ["endcall"]
      let _ ← advanceAfterBlockEnd Option.none
      let callerName := Node.Symbol callTok.lineno callTok.colno "caller"
      let callerNode := Node.Caller callTok.lineno callTok.colno callerName callerArgs body
      match macroCall with
      | Node.FunCall fl fc fname (Node.NodeList al ac children) =>
        let pair := Node.Pair callTok.lineno callTok.colno callerName callerNode
        return Node.Output callTok.lineno callTok.colno
          [Node.FunCall fl fc fname (Node.NodeList al ac (pushCallerPair children pair))]
      | _ => PM.throw (.typeError "cannot read children of undefined")

/-- `parseImport()` (parser.js:288-317). -/
def parseImportF (p : Parsers) : PM Node := do
  let importTokO ← peekToken
  match importTokO with
  | Option.none => do
    let _ ← skipSymbol "import"
    PM.throw (.typeError "cannot read lineno of null")
  | some importTok => do
    if !(← skipSymbol "import") then
      fail "parseImport: expected import" (some importTok.lineno) (some importTok.colno)
    else do
      let template ← p.parseExpression
      if !(← skipSymbol "as") then
        fail "parseImport: expected \"as\" keyword" (some importTok.lineno) (some importTok.colno)
      else do
        let target ← p.parseExpression
        let withContext ← parseWithContext
        let _ ← advanceAfterBlockEnd (some importTok.value)
        return Node.Import importTok.lineno importTok.colno template target withContext

/-- `parseFrom()` (parser.js:319-389). -/
def parseFromF (p : Parsers) : PM Node := do
  let fromTokO ← peekToken
  if !(← skipSymbol "from") then
    fail "parseFrom: expected from" Option.none Option.none
  else
    match fromTokO with
    | Option.none => PM.throw (.typeError "cannot read lineno of null")
    | some fromTok => do
      let template ← p.parseExpression
      if !(← skipSymbol "import") then
        fail "parseFrom: expected import" (some fromTok.lineno) (some fromTok.colno)
      else do
        let nw ← p.parseFromLoop fromTok [] Option.none
        return Node.FromImport fromTok.lineno fromTok.colno template
          (Node.NodeList 0 0 nw.1) nw.2

/-- The name-collecting `while(1)` loop of `parseFrom`.  Underscore
names are rejected with a `parseFrom: `-prefixed message at the name's
position; `withContext` is reassigned on every iteration; the
terminating BLOCK_END is consumed manually with its own `-` check. -/
def parseFromLoopF (p : Parsers) (fromTok : Token) (names : List Node)
    (withContext : Option Bool) : PM (List Node × Option Bool) := do
  let nextTokO ← peekToken
  match nextTokO with
  | Option.none => PM.throw (.typeError "cannot read type of null")
  | some nextTok =>
    if nextTok.type = .blockEnd then do
      if names.isEmpty then
        fail "parseFrom: Expected at least one import name"
          (some fromTok.lineno) (some fromTok.colno)
      else do
        if jsCharAt nextTok.value 0 = "-" then
          modifyS (fun s => { s with dropLeadingWhitespace := true })
        else pure ()
        let _ ← nextToken false
        return (names, withContext)
    else do
      let commaFail ← if names.length > 0 then pure (!(← skip .comma)) else pure false
      if commaFail then
        fail "parseFrom: expected comma" (some fromTok.lineno) (some fromTok.colno)
      else do
        let name ← p.parsePrimary false
        let nameVal : String ←
          match name with
          | Node.Symbol _ _ v => pure v
          | Node.Literal _ _ (.str v) => pure v
          | Node.TemplateData _ _ v => pure v
          | _ => PM.throw (.typeError "charAt is not a function")
        if jsCharAt nameVal 0 = "_" then
          fail "parseFrom: names starting with an underscore cannot be imported"
            (some name.lineno) (some name.colno)
        else do
          let entry ←
            if (← skipSymbol "as") then do
              let aliasNode ← p.parsePrimary false
              pure (Node.Pair name.lineno name.colno name aliasNode)
            else pure name
          let wc ← parseWithContext
          p.parseFromLoop fromTok (names ++ [entry]) wc

/-- `parseBlock()` (parser.js:391-420). -/
def parseBlockF (p : Parsers) : PM Node := do
  let tagO ← peekToken
  match tagO with
  | Option.none => do
    let _ ← skipSymbol "block"
    PM.throw (.typeError "cannot read lineno of null")
  | some tag => do
    if !(← skipSymbol "block") then
      fail "parseBlock: expected block" (some tag.lineno) (some tag.colno)
    else do
      let name ← p.parsePrimary false
      let isSym := match name with | Node.Symbol _ _ _ => true | _ => false
      if isSym = false then
        fail "parseBlock: variable name expected" (some tag.lineno) (some tag.colno)
      else do
        let _ ← advanceAfterBlockEnd (some tag.value)
        let body ← p.parseUntilBlocks ["endblock"]
        let _ ← skipSymbol "endblock"
        let nameVal := match name with | Node.Symbol _ _ v => v | _ => ""
        let _ ← skipSymbol nameVal
        let tokO ← peekToken
        match tokO with
        | Option.none =>
          fail "parseBlock: expected endblock, got end of file" Option.none Option.none
        | some tok => do
          let _ ← advanceAfterBlockEnd (some tok.value)
          return Node.Block tag.lineno tag.colno name body

/-- `parseExtends()` (parser.js:422-434). -/
def parseExtendsF (p : Parsers) : PM Node := do
  let tagO ← peekToken
  if !(← skipSymbol "extends") then
    fail "parseTemplateRef: expected extends" Option.none Option.none
  else
    match tagO with
    | Option.none => PM.throw (.typeError "cannot read lineno of null")
    | some tag => do
      let template ← p.parseExpression
      let _ ← advanceAfterBlockEnd (some tag.value)
      return Node.Extends tag.lineno tag.colno template

/-- `parseInclude()` (parser.js:436-452).  Note the short-circuit: a
lone `ignore` without `missing` stays consumed. -/
def parseIncludeF (p : Parsers) : PM Node := do
  let tagO ← peekToken
  if !(← skipSymbol "include") then
    fail "parseInclude: expected include" Option.none Option.none
  else
    match tagO with
    | Option.none => PM.throw (.typeError "cannot read lineno of null")
    | some tag => do
      let template ← p.parseExpression
      let ign1 ← skipSymbol "ignore"
      let ignoreMissing ← if ign1 then skipSymbol "missing" else pure false
      let _ ← advanceAfterBlockEnd (some tag.value)
      return Node.Include tag.lineno tag.colno template ignoreMissing

/-- `parseSet()` (parser.js:498-537). -/
def parseSetF (p : Parsers) : PM Node := do
  let tagO ← peekToken
  match tagO with
  | Option.none => do
    let _ ← skipSymbol "set"
    PM.throw (.typeError "cannot read lineno of null")
  | some tag => do
    if !(← skipSymbol "set") then
      fail "parseSet: expected set" (some tag.lineno) (some tag.colno)
    else do
      let targets ← p.parseSetLoop []
      if !(← skipValue .operator "=") then
        if !(← skip .blockEnd) then
          fail "parseSet: expected = or block end in set tag" (some tag.lineno) (some tag.colno)
        else do
          let inner ← p.parseUntilBlocks ["endset"]
          let body := Node.Capture tag.lineno tag.colno inner
          let _ ← advanceAfterBlockEnd Option.none
          return Node.Set tag.lineno tag.colno targets Node.jsNull body
      else do
        let value ← p.parseExpression
        let _ ← advanceAfterBlockEnd (some tag.value)
        return Node.Set tag.lineno tag.colno targets value Node.jsNull

/-- The target loop of `parseSet` (a do-while: `parsePrimary` cannot
yield a falsy value, it fails instead). -/
def parseSetLoopF (p : Parsers) (targets : List Node) : PM (List Node) := do
  let target ← p.parsePrimary false
  let targets := targets ++ [target]
  if (← skip .comma) then p.parseSetLoop targets
  else return targets

/-- `parseUntilBlocks(...blockNames)` (parser.js:1189-1197).  The
restore of `breakOnBlocks` happens after `this.parse()` returns; there
is no try/finally, so an error inside the nested parse leaves
`breakOnBlocks` set to `blockNames`. -/
def parseUntilBlocksF (p : Parsers) (blockNames : List String) : PM Node := do
  let s ← getS
  let prev := s.breakOnBlocks
  setS { s with breakOnBlocks := some blockNames }
  let ret ← p.parse
  modifyS (fun s' => { s' with breakOnBlocks := prev })
  return ret

/-- `parseNodes()` (parser.js:1199-1265): the top-level driver loop,
written as a token-consuming recursion that conses the emitted nodes. -/
def parseNodesF (p : Parsers) : PM (List Node) := do
  let tokO ← nextToken false
  match tokO with
  | Option.none => return []
  | some tok =>
    if tok.type = .data then do
      let nextTokenO ← peekToken
      let s ← getS
      let data := tok.value
      let data := if s.dropLeadingWhitespace then stripLeadingWs data else data
      if s.dropLeadingWhitespace then
        modifyS (fun st => { st with dropLeadingWhitespace := false })
      else pure ()
      let data :=
        if dropTrailingMarker nextTokenO s.tokens.tags then stripTrailingWs data else data
      let rest ← p.parseNodes
      return Node.Output tok.lineno tok.colno
        [Node.TemplateData tok.lineno tok.colno data] :: rest
    else if tok.type = .blockStart then do
      modifyS (fun st => { st with dropLeadingWhitespace := false })
      let n ← p.parseStatement
      if n.isNull then return []
      else do
        let rest ← p.parseNodes
        return n :: rest
    else if tok.type = .variableStart then do
      let e ← p.parseExpression
      modifyS (fun st => { st with dropLeadingWhitespace := false })
      advanceAfterVariableEnd
      let rest ← p.parseNodes
      return Node.Output tok.lineno tok.colno [e] :: rest
    else if tok.type = .comment then do
      let s ← getS
      let dlw := jsCharAt tok.value
        ((tok.value.length : Int) - (s.tokens.tags.COMMENT_END.length : Int) - 1) = "-"
      setS { s with dropLeadingWhitespace := dlw }
      p.parseNodes
    else
      fail ("Unexpected token at top-level: " ++ tok.type.str) (some tok.lineno) (some tok.colno)

/-- `parse()` (parser.js:1267-1269). -/
def parseF (p : Parsers) : PM Node := do
  let children ← p.parseNodes
  return Node.NodeList 0 0 children

/-- The bottom of the fuel iteration: every routine reports exhausted
fuel (a model artifact, never reached with ample fuel). -/
def bottomParsers : Parsers where
  parseExpression := PM.throw .fuel
  parseInlineIf := PM.throw .fuel
  parseOr := PM.throw .fuel
  parseOrLoop := fun _ => PM.throw .fuel
  parseAnd := PM.throw .fuel
  parseAndLoop := fun _ => PM.throw .fuel
  parseNot := PM.throw .fuel
  parseIn := PM.throw .fuel
  parseInLoop := fun _ => PM.throw .fuel
  parseCompare := PM.throw .fuel
  parseCompareLoop := fun _ => PM.throw .fuel
  parseConcat := PM.throw .fuel
  parseConcatLoop := fun _ => PM.throw .fuel
  parseAdd := PM.throw .fuel
  parseAddLoop := fun _ => PM.throw .fuel
  parseSub := PM.throw .fuel
  parseSubLoop := fun _ => PM.throw .fuel
  parseMul := PM.throw .fuel
  parseMulLoop := fun _ => PM.throw .fuel
  parseDiv := PM.throw .fuel
  parseDivLoop := fun _ => PM.throw .fuel
  parseFloorDiv := PM.throw .fuel
  parseFloorDivLoop := fun _ => PM.throw .fuel
  parseMod := PM.throw .fuel
  parseModLoop := fun _ => PM.throw .fuel
  parsePow := PM.throw .fuel
  parsePowLoop := fun _ => PM.throw .fuel
  parseUnary := fun _ => PM.throw .fuel
  parsePrimary := fun _ => PM.throw .fuel
  parsePostfix := fun _ => PM.throw .fuel
  parseAggregate := PM.throw .fuel
  parseAggregateLoop := fun _ _ _ => PM.throw .fuel
  parseSignature := fun _ _ => PM.throw .fuel
  parseSignatureLoop := fun _ _ _ _ _ => PM.throw .fuel
  parseFilterName := PM.throw .fuel
  parseFilterNameLoop := fun _ => PM.throw .fuel
  parseFilterArgs := fun _ => PM.throw .fuel
  parseFilter := fun _ => PM.throw .fuel
  parseFilterStatement := PM.throw .fuel
  parseStatement := PM.throw .fuel
  parseRaw := fun _ => PM.throw .fuel
  parseIf := PM.throw .fuel
  parseFor := PM.throw .fuel
  parseForLoop := fun _ => PM.throw .fuel
  parseMacro := PM.throw .fuel
  parseCall := PM.throw .fuel
  parseImport := PM.throw .fuel
  parseFrom := PM.throw .fuel
  parseFromLoop := fun _ _ _ => PM.throw .fuel
  parseBlock := PM.throw .fuel
  parseExtends := PM.throw .fuel
  parseInclude := PM.throw .fuel
  parseSet := PM.throw .fuel
  parseSetLoop := fun _ => PM.throw .fuel
  parseUntilBlocks := fun _ => PM.throw .fuel
  parse := PM.throw .fuel
  parseNodes := PM.throw .fuel

/-- One step of the recursion knot: each routine body calls its callees
one fuel level down. -/
def parserStep (p : Parsers) : Parsers where
  parseExpression := parseExpressionF p
  parseInlineIf := parseInlineIfF p
  parseOr := parseOrF p
  parseOrLoop := parseOrLoopF p
  parseAnd := parseAndF p
  parseAndLoop := parseAndLoopF p
  parseNot := parseNotF p
  parseIn := parseInF p
  parseInLoop := parseInLoopF p
  parseCompare := parseCompareF p
  parseCompareLoop := parseCompareLoopF p
  parseConcat := parseConcatF p
  parseConcatLoop := parseConcatLoopF p
  parseAdd := parseAddF p
  parseAddLoop := parseAddLoopF p
  parseSub := parseSubF p
  parseSubLoop := parseSubLoopF p
  parseMul := parseMulF p
  parseMulLoop := parseMulLoopF p
  parseDiv := parseDivF p
  parseDivLoop := parseDivLoopF p
  parseFloorDiv := parseFloorDivF p
  parseFloorDivLoop := parseFloorDivLoopF p
  parseMod := parseModF p
  parseModLoop := parseModLoopF p
  parsePow := parsePowF p
  parsePowLoop := parsePowLoopF p
  parseUnary := parseUnaryF p
  parsePrimary := parsePrimaryF p
  parsePostfix := parsePostfixF p
  parseAggregate := parseAggregateF p
  parseAggregateLoop := parseAggregateLoopF p
  parseSignature := parseSignatureF p
  parseSignatureLoop := parseSignatureLoopF p
  parseFilterName := parseFilterNameF p
  parseFilterNameLoop := parseFilterNameLoopF p
  parseFilterArgs := parseFilterArgsF p
  parseFilter := parseFilterF p
  parseFilterStatement := parseFilterStatementF p
  parseStatement := parseStatementF p
  parseRaw := parseRawF p
  parseIf := parseIfF p
  parseFor := parseForF p
  parseForLoop := parseForLoopF p
  parseMacro := parseMacroF p
  parseCall := parseCallF p
  parseImport := parseImportF p
  parseFrom := parseFromF p
  parseFromLoop := parseFromLoopF p
  parseBlock := parseBlockF p
  parseExtends := parseExtendsF p
  parseInclude := parseIncludeF p
  parseSet := parseSetF p
  parseSetLoop := parseSetLoopF p
  parseUntilBlocks := parseUntilBlocksF p
  parse := parseF p
  parseNodes := parseNodesF p

/-- The routine bundle at a given fuel level. -/
def parsersAt : Nat → Parsers
  | 0 => bottomParsers
  | n + 1 => parserStep (parsersAt n)

/-- Fuel-indexed `parseExpression` (parser.js:686-689). -/
def parseExpression (fuel : Nat) : PM Node := Parsers.parseExpression (parsersAt fuel)

/-- Fuel-indexed `parseInlineIf` (parser.js:691-707). -/
def parseInlineIf (fuel : Nat) : PM Node := Parsers.parseInlineIf (parsersAt fuel)

/-- Fuel-indexed `parseOr` (parser.js:709-719). -/
def parseOr (fuel : Nat) : PM Node := Parsers.parseOr (parsersAt fuel)

/-- Fuel-indexed `parseAnd` (parser.js:721-731). -/
def parseAnd (fuel : Nat) : PM Node := Parsers.parseAnd (parsersAt fuel)

/-- Fuel-indexed `parseNot` (parser.js:733-741). -/
def parseNot (fuel : Nat) : PM Node := Parsers.parseNot (parsersAt fuel)

/-- Fuel-indexed `parseIn` (parser.js:743-771). -/
def parseIn (fuel : Nat) : PM Node := Parsers.parseIn (parsersAt fuel)

/-- Fuel-indexed `parseCompare` (parser.js:773-805). -/
def parseCompare (fuel : Nat) : PM Node := Parsers.parseCompare (parsersAt fuel)

/-- Fuel-indexed `parseConcat` (parser.js:808-818). -/
def parseConcat (fuel : Nat) : PM Node := Parsers.parseConcat (parsersAt fuel)

/-- Fuel-indexed `parseAdd` (parser.js:820-830). -/
def parseAdd (fuel : Nat) : PM Node := Parsers.parseAdd (parsersAt fuel)

/-- Fuel-indexed `parseSub` (parser.js:832-842). -/
def parseSub (fuel : Nat) : PM Node := Parsers.parseSub (parsersAt fuel)

/-- Fuel-indexed `parseMul` (parser.js:844-854). -/
def parseMul (fuel : Nat) : PM Node := Parsers.parseMul (parsersAt fuel)

/-- Fuel-indexed `parseDiv` (parser.js:856-866). -/
def parseDiv (fuel : Nat) : PM Node := Parsers.parseDiv (parsersAt fuel)

/-- Fuel-indexed `parseFloorDiv` (parser.js:868-878). -/
def parseFloorDiv (fuel : Nat) : PM Node := Parsers.parseFloorDiv (parsersAt fuel)

/-- Fuel-indexed `parseMod` (parser.js:880-890). -/
def parseMod (fuel : Nat) : PM Node := Parsers.parseMod (parsersAt fuel)

/-- Fuel-indexed `parsePow` (parser.js:892-902). -/
def parsePow (fuel : Nat) : PM Node := Parsers.parsePow (parsersAt fuel)

/-- Fuel-indexed `parseUnary` (parser.js:904-927). -/
def parseUnary (fuel : Nat) (noFilters : Bool) : PM Node :=
  Parsers.parseUnary (parsersAt fuel) noFilters

/-- Fuel-indexed `parsePrimary` (parser.js:929-991). -/
def parsePrimary (fuel : Nat) (noPostfixArg : Bool) : PM Node :=
  Parsers.parsePrimary (parsersAt fuel) noPostfixArg

/-- Fuel-indexed `parsePostfix` (parser.js:631-684). -/
def parsePostfix (fuel : Nat) (node : Node) : PM Node :=
  Parsers.parsePostfix (parsersAt fuel) node

/-- Fuel-indexed `parseAggregate` (parser.js:1068-1127). -/
def parseAggregate (fuel : Nat) : PM Node := Parsers.parseAggregate (parsersAt fuel)

/-- Fuel-indexed `parseSignature` (parser.js:1129-1187). -/
def parseSignature (fuel : Nat) (tolerant noParens : Bool) : PM Node :=
  Parsers.parseSignature (parsersAt fuel) tolerant noParens

/-- Fuel-indexed `parseFilterName` (parser.js:993-1002). -/
def parseFilterName (fuel : Nat) : PM Node := Parsers.parseFilterName (parsersAt fuel)

/-- Fuel-indexed `parseFilterArgs` (parser.js:1004-1012). -/
def parseFilterArgs (fuel : Nat) (node : Node) : PM (List Node) :=
  Parsers.parseFilterArgs (parsersAt fuel) node

/-- Fuel-indexed `parseFilter` (parser.js:1014-1031). -/
def parseFilter (fuel : Nat) (node : Node) : PM Node :=
  Parsers.parseFilter (parsersAt fuel) node

/-- Fuel-indexed `parseFilterStatement` (parser.js:1033-1066). -/
def parseFilterStatement (fuel : Nat) : PM Node :=
  Parsers.parseFilterStatement (parsersAt fuel)

/-- Fuel-indexed `parseStatement` (parser.js:539-584). -/
def parseStatement (fuel : Nat) : PM Node := Parsers.parseStatement (parsersAt fuel)

/-- Fuel-indexed `parseRaw` (parser.js:586-629). -/
def parseRaw (fuel : Nat) (tagName : Option String) : PM Node :=
  Parsers.parseRaw (parsersAt fuel) tagName

/-- Fuel-indexed `parseIf` (parser.js:454-496). -/
def parseIf (fuel : Nat) : PM Node := Parsers.parseIf (parsersAt fuel)

/-- Fuel-indexed `parseFor` (parser.js:144-203). -/
def parseFor (fuel : Nat) : PM Node := Parsers.parseFor (parsersAt fuel)

/-- Fuel-indexed `parseMacro` (parser.js:205-223). -/
def parseMacro (fuel : Nat) : PM Node := Parsers.parseMacro (parsersAt fuel)

/-- Fuel-indexed `parseCall` (parser.js:225-263). -/
def parseCall (fuel : Nat) : PM Node := Parsers.parseCall (parsersAt fuel)

/-- Fuel-indexed `parseImport` (parser.js:288-317). -/
def parseImport (fuel : Nat) : PM Node := Parsers.parseImport (parsersAt fuel)

/-- Fuel-indexed `parseFrom` (parser.js:319-389). -/
def parseFrom (fuel : Nat) : PM Node := Parsers.parseFrom (parsersAt fuel)

/-- Fuel-indexed `parseBlock` (parser.js:391-420). -/
def parseBlock (fuel : Nat) : PM Node := Parsers.parseBlock (parsersAt fuel)

/-- Fuel-indexed `parseExtends` (parser.js:422-434). -/
def parseExtends (fuel : Nat) : PM Node := Parsers.parseExtends (parsersAt fuel)

/-- Fuel-indexed `parseInclude` (parser.js:436-452). -/
def parseInclude (fuel : Nat) : PM Node := Parsers.parseInclude (parsersAt fuel)

/-- Fuel-indexed `parseSet` (parser.js:498-537). -/
def parseSet (fuel : Nat) : PM Node := Parsers.parseSet (parsersAt fuel)

/-- Fuel-indexed `parseUntilBlocks` (parser.js:1189-1197). -/
def parseUntilBlocks (fuel : Nat) (blockNames : List String) : PM Node :=
  Parsers.parseUntilBlocks (parsersAt fuel) blockNames

/-- Fuel-indexed `parseNodes` (parser.js:1199-1265). -/
def parseNodes (fuel : Nat) : PM (List Node) := Parsers.parseNodes (parsersAt fuel)

/-- Fuel-indexed `parse` (parser.js:1267-1269). -/
def parse (fuel : Nat) : PM Node := Parsers.parse (parsersAt fuel)


/-- `parseAsRoot()` (parser.js:1271-1273). -/
def parseAsRoot (fuel : Nat) : PM Node := do
  let children ← parseNodes fuel
  return Node.Root 0 0 children

/-!
Concrete fixtures for the claims.  Token streams stand in for the
lexer (an external collaborator per the spec): each list is the token
sequence the lexer produces for the quoted template, with plausible
positions and, where it matters, interspersed whitespace tokens.
-/

/-- Token constructor shorthand for the concrete runs. -/
def tk (ty : TokenType) (v : String) (l c : Nat) : Token := ⟨ty, v, l, c⟩

/-- A fresh parser state over a token list, as built by `Parser.init`
(empty pushback, `breakOnBlocks` null, latch clear, no extensions). -/
def mkSt (ts : List Token) : PState := { tokens := { list := ts } }

/-- Whether a node is a `Sub` at the root. -/
def Node.isSub : Node → Bool
  | .Sub _ _ _ _ => true
  | _ => false

/-- Tokens of a block whose statement raises: the unknown tag `bogus`. -/
def tsC1 : List Token :=
  [tk .blockStart "\x7b%" 0 0, tk .symbol "bogus" 0 3, tk .blockEnd "%\x7d" 0 9]

/-- A state with a saved `breakOnBlocks` value to observe across
`parseUntilBlocks`. -/
def stC1 : PState := { tokens := { list := tsC1 }, breakOnBlocks := some ["endfoo"] }

/-- A state whose nested parse succeeds immediately (empty stream). -/
def stC1w : PState := { tokens := { list := [] } }

/-- Tokens of the expression `a + b - c`. -/
def tsABC : List Token :=
  [tk .symbol "a" 0 3, tk .operator "+" 0 5, tk .symbol "b" 0 7,
   tk .operator "-" 0 9, tk .symbol "c" 0 11]

/-- Tokens of the expression `a - b - c`. -/
def tsAmBmC : List Token :=
  [tk .symbol "a" 0 3, tk .operator "-" 0 5, tk .symbol "b" 0 7,
   tk .operator "-" 0 9, tk .symbol "c" 0 11]

/-- Tokens of the expression `a + b + c`. -/
def tsApBpC : List Token :=
  [tk .symbol "a" 0 3, tk .operator "+" 0 5, tk .symbol "b" 0 7,
   tk .operator "+" 0 9, tk .symbol "c" 0 11]

/-- Tokens of the template `\x7b\x7b 1 + 2 * 3 ** 2 \x7d\x7d`. -/
def tsC3 : List Token :=
  [tk .variableStart "\x7b\x7b" 0 0, tk .whitespace " " 0 2, tk .int "1" 0 3,
   tk .whitespace " " 0 4, tk .operator "+" 0 5, tk .whitespace " " 0 6,
   tk .int "2" 0 7, tk .whitespace " " 0 8, tk .operator "*" 0 9,
   tk .whitespace " " 0 10, tk .int "3" 0 11, tk .whitespace " " 0 12,
   tk .operator "**" 0 13, tk .whitespace " " 0 15, tk .int "2" 0 16,
   tk .whitespace " " 0 17, tk .variableEnd "\x7d\x7d" 0 18]

/-- A state with the latch set whose next token is the DATA `"  hi"`. -/
def stW4c : PState := ⟨⟨[tk .data "  hi" 0 0], {}⟩, Option.none, Option.none, true, []⟩

/-- A state whose one-slot pushback buffer is already full. -/
def stFull : PState := { tokens := { list := [] }, peeked := some (tk .symbol "y" 0 0) }

/-- Tokens of the template `\x7b% from "t" import _x %\x7d` (the name
`_x` sits at line 0, column 19). -/
def tsC9 : List Token :=
  [tk .blockStart "\x7b%" 0 0, tk .whitespace " " 0 2, tk .symbol "from" 0 3,
   tk .whitespace " " 0 7, tk .string "t" 0 8, tk .whitespace " " 0 11,
   tk .symbol "import" 0 12, tk .whitespace " " 0 18, tk .symbol "_x" 0 19,
   tk .whitespace " " 0 21, tk .blockEnd "%\x7d" 0 22]

/-- Tokens of `\x7b% for 1 in d %\x7d` (INT literal as first target). -/
def tsC10a : List Token :=
  [tk .blockStart "\x7b%" 0 0, tk .symbol "for" 0 3, tk .int "1" 0 7,
   tk .symbol "in" 0 9, tk .symbol "d" 0 12, tk .blockEnd "%\x7d" 0 14]

/-- Tokens of `\x7b% for "s" in d %\x7d` (string as first target). -/
def tsC10b : List Token :=
  [tk .blockStart "\x7b%" 0 0, tk .symbol "for" 0 3, tk .string "s" 0 7,
   tk .symbol "in" 0 11, tk .symbol "d" 0 14, tk .blockEnd "%\x7d" 0 16]

/-- Tokens of `\x7b% for [a] in d %\x7d` (aggregate as first target). -/
def tsC10c : List Token :=
  [tk .blockStart "\x7b%" 0 0, tk .symbol "for" 0 3, tk .leftBracket "[" 0 7,
   tk .symbol "a" 0 8, tk .rightBracket "]" 0 9, tk .symbol "in" 0 11,
   tk .symbol "d" 0 14, tk .blockEnd "%\x7d" 0 16]

/-- Tokens of `\x7b% for x, 1 in d %\x7d\x7b% endfor %\x7d` (a
non-symbol second target after the comma). -/
def tsC10d : List Token :=
  [tk .blockStart "\x7b%" 0 0, tk .symbol "for" 0 3, tk .symbol "x" 0 7,
   tk .comma "," 0 8, tk .int "1" 0 10, tk .symbol "in" 0 12,
   tk .symbol "d" 0 15, tk .blockEnd "%\x7d" 0 17,
   tk .blockStart "\x7b%" 0 19, tk .symbol "endfor" 0 22, tk .blockEnd "%\x7d" 0 29]

/-!
Helper lemmas: one-step run equations for the monad and the token
cursor, and the one-step unfoldings of `parseUntilBlocks` and of the
`parseNodes` DATA case used by several claims.
-/

/-- Running a bind: the continuation sees the state the first action
left behind, also on the error path (exceptions do not roll back). -/
theorem pm_bind_apply {α β : Type} (m : PM α) (f : α → PM β) (s : PState) :
    (m >>= f) s = match m s with
      | (.ok a, s') => f a s'
      | (.error e, s') => (.error e, s') := rfl

/-- Running `nextToken false` on an empty pushback slot pops from the
stream, skipping whitespace. -/
theorem nextToken_false_nopeek (list : List Token) (tg : Tags)
    (bob : Option (List String)) (dlw : Bool) (ex : List Extension) :
    nextToken false ⟨⟨list, tg⟩, Option.none, bob, dlw, ex⟩ =
      (.ok (streamNext false list).1,
       ⟨⟨(streamNext false list).2, tg⟩, Option.none, bob, dlw, ex⟩) := rfl

/-- Running `nextToken false` with a buffered whitespace token drops it
silently and falls through to the stream. -/
theorem nextToken_false_peeked_ws (list : List Token) (tg : Tags) (p : Token)
    (bob : Option (List String)) (dlw : Bool) (ex : List Extension)
    (hw : p.type = .whitespace) :
    nextToken false ⟨⟨list, tg⟩, some p, bob, dlw, ex⟩ =
      (.ok (streamNext false list).1,
       ⟨⟨(streamNext false list).2, tg⟩, Option.none, bob, dlw, ex⟩) := by
  have e : nextToken false ⟨⟨list, tg⟩, some p, bob, dlw, ex⟩ =
      if false = false ∧ p.type = .whitespace then
        (.ok (streamNext false list).1,
         ⟨⟨(streamNext false list).2, tg⟩, Option.none, bob, dlw, ex⟩)
      else (.ok (some p), ⟨⟨list, tg⟩, Option.none, bob, dlw, ex⟩) := rfl
  rw [e, if_pos ⟨rfl, hw⟩]

/-- Running `nextToken false` with a buffered non-whitespace token
returns it and clears the slot. -/
theorem nextToken_false_peeked_nws (list : List Token) (tg : Tags) (p : Token)
    (bob : Option (List String)) (dlw : Bool) (ex : List Extension)
    (hw : p.type ≠ .whitespace) :
    nextToken false ⟨⟨list, tg⟩, some p, bob, dlw, ex⟩ =
      (.ok (some p), ⟨⟨list, tg⟩, Option.none, bob, dlw, ex⟩) := by
  have e : nextToken false ⟨⟨list, tg⟩, some p, bob, dlw, ex⟩ =
      if false = false ∧ p.type = .whitespace then
        (.ok (streamNext false list).1,
         ⟨⟨(streamNext false list).2, tg⟩, Option.none, bob, dlw, ex⟩)
      else (.ok (some p), ⟨⟨list, tg⟩, Option.none, bob, dlw, ex⟩) := rfl
  rw [e, if_neg (by simp [hw])]

/-- The skipping pop never yields a whitespace token when whitespace is
not requested. -/
theorem streamNext_no_ws (l : List Token) (t : Token)
    (h : (streamNext false l).1 = some t) : t.type ≠ .whitespace := by
  induction l with
  | nil => simp [streamNext] at h
  | cons x xs ih =>
    rw [streamNext] at h
    by_cases hx : x.type = .whitespace
    · rw [if_pos ⟨rfl, hx⟩] at h
      exact ih h
    · rw [if_neg (by simp [hx])] at h
      simp only [Option.some.injEq] at h
      exact h ▸ hx

/-- One unfolding of `parseUntilBlocks`: save `breakOnBlocks`, set it
to the argument list, run the nested `parse`, and restore the saved
value only on the `ok` path (the error path of the bind short-circuits
past the restore: the source has no try/finally). -/
theorem parseUntilBlocks_run (fuel : Nat) (blocks : List String) (s : PState) :
    parseUntilBlocks (fuel + 1) blocks s =
      (parse fuel >>= fun r => fun s' =>
        (.ok r, { s' with breakOnBlocks := s.breakOnBlocks }))
        { s with breakOnBlocks := some blocks } := rfl

/-- One unfolding of the `parseNodes` DATA step with the
`dropLeadingWhitespace` latch set: the emitted `TemplateData` text is
the token text with leading whitespace stripped (and trailing
whitespace stripped when the upcoming marker asks for it), and the
continuation runs with the latch cleared. -/
theorem parseNodes_data_run (fuel : Nat) (v : String) (l c : Nat) (rest : List Token)
    (tg : Tags) (bob : Option (List String)) (ex : List Extension) :
    parseNodes (fuel + 1) ⟨⟨⟨.data, v, l, c⟩ :: rest, tg⟩, Option.none, bob, true, ex⟩ =
      (parseNodes fuel >>= fun buf => fun s2 =>
        (.ok (Node.Output l c
          [Node.TemplateData l c
            (if dropTrailingMarker (streamNext false rest).1 tg
             then stripTrailingWs (stripLeadingWs v) else stripLeadingWs v)] :: buf), s2))
        ⟨⟨(streamNext false rest).2, tg⟩, (streamNext false rest).1, bob, false, ex⟩ := rfl

/-- Claim C1, counterexample: `parseUntilBlocks` does not restore
`breakOnBlocks` when the nested parse raises.  Here the nested parse
hits an unknown block tag and throws; afterwards `breakOnBlocks` is
still the argument list `["endif"]`, not the saved `["endfoo"]`. -/
theorem c1_counterexample :
    (parseUntilBlocks 20 ["endif"] stC1).1 =
      .error (.template "unknown block tag: bogus" (some 1) (some 4)) ∧
    (parseUntilBlocks 20 ["endif"] stC1).2.breakOnBlocks = some ["endif"] ∧
    stC1.breakOnBlocks = some ["endfoo"] ∧
    (some ["endif"] : Option (List String)) ≠ some ["endfoo"] :=
  ⟨rfl, rfl, rfl, by decide⟩

/-- Claim C1, amended: `parseUntilBlocks` saves the current
`breakOnBlocks`, sets it to its argument list and runs the nested
parse; when the nested parse returns normally the saved value is
restored, but when it raises, the error propagates with the state
exactly as the nested parse left it — the saved value is not restored
(no try/finally in the source). -/
theorem c1_restores (fuel : Nat) (blocks : List String) (s : PState) :
    (∀ (r : Node) (s' : PState),
        parse fuel { s with breakOnBlocks := some blocks } = (.ok r, s') →
        parseUntilBlocks (fuel + 1) blocks s =
          (.ok r, { s' with breakOnBlocks := s.breakOnBlocks })) ∧
    (∀ (e : PErr) (s' : PState),
        parse fuel { s with breakOnBlocks := some blocks } = (.error e, s') →
        parseUntilBlocks (fuel + 1) blocks s = (.error e, s')) := by
  constructor
  · intro r s' h
    rw [parseUntilBlocks_run, pm_bind_apply, h]
  · intro e s' h
    rw [parseUntilBlocks_run, pm_bind_apply, h]

/-- Witness for `c1_restores`: on an empty stream the nested parse
returns an empty `NodeList` and the original (null) `breakOnBlocks` is
restored. -/
theorem c1_restores_witness :
    parseUntilBlocks 3 ["endfor"] stC1w = (.ok (Node.NodeList 0 0 []), stC1w) :=
  (c1_restores 2 ["endfor"] stC1w).1 (Node.NodeList 0 0 [])
    { stC1w with breakOnBlocks := some ["endfor"] } rfl

/-- Claim C2, counterexample: `a + b - c` parses to
`Add(a, Sub(b, c))` — whose root is not a `Sub` node — and not to the
claimed `Sub(Add(a, b), c)`: `+` and `-` are not one precedence
level. -/
theorem c2_counterexample :
    (parseExpression 30 (mkSt tsABC)).1 =
      .ok (Node.Add 0 3 (Node.Symbol 0 3 "a")
        (Node.Sub 0 7 (Node.Symbol 0 7 "b") (Node.Symbol 0 11 "c"))) ∧
    Node.isSub (Node.Add 0 3 (Node.Symbol 0 3 "a")
        (Node.Sub 0 7 (Node.Symbol 0 7 "b") (Node.Symbol 0 11 "c"))) = false :=
  ⟨rfl, rfl⟩

/-- Claim C2, amended: `+` and `-` sit on two separate precedence
levels, each individually left-associative, with `-` binding tighter
than `+` (`parseAdd` takes its operands from `parseSub`): `a + b - c`
parses as `Add(a, Sub(b, c))`, `a - b - c` as `Sub(Sub(a, b), c)` and
`a + b + c` as `Add(Add(a, b), c)`. -/
theorem c2_amended :
    (parseExpression 30 (mkSt tsABC)).1 =
      .ok (Node.Add 0 3 (Node.Symbol 0 3 "a")
        (Node.Sub 0 7 (Node.Symbol 0 7 "b") (Node.Symbol 0 11 "c"))) ∧
    (parseExpression 30 (mkSt tsAmBmC)).1 =
      .ok (Node.Sub 0 3
        (Node.Sub 0 3 (Node.Symbol 0 3 "a") (Node.Symbol 0 7 "b")) (Node.Symbol 0 11 "c")) ∧
    (parseExpression 30 (mkSt tsApBpC)).1 =
      .ok (Node.Add 0 3
        (Node.Add 0 3 (Node.Symbol 0 3 "a") (Node.Symbol 0 7 "b")) (Node.Symbol 0 11 "c")) :=
  ⟨rfl, rfl, rfl⟩

/-- Claim C3: parsing the token stream of
`\x7b\x7b 1 + 2 * 3 ** 2 \x7d\x7d` produces a root whose single child
is `Output[Add(Literal 1, Mul(Literal 2, Pow(Literal 3, Literal 2)))]`:
`**` binds tighter than `*`, which binds tighter than `+`. -/
theorem c3_precedence :
    (parseAsRoot 100 (mkSt tsC3)).1 =
      .ok (Node.Root 0 0
        [Node.Output 0 0
          [Node.Add 0 3 (Node.Literal 0 3 (.int 1))
            (Node.Mul 0 7 (Node.Literal 0 7 (.int 2))
              (Node.Pow 0 11 (Node.Literal 0 11 (.int 3))
                (Node.Literal 0 16 (.int 2))))]]) := rfl

/-- Claim C4: consuming a closing BLOCK_END whose value begins with `-`
sets the `dropLeadingWhitespace` latch (first conjunct); and on a DATA
token reached with the latch set, the node parser emits the token text
with all leading whitespace stripped (trailing whitespace additionally
stripped when the upcoming opening marker asks for it) and continues
with the latch cleared (second conjunct). -/
theorem c4_whitespace_latch :
    (∀ (n v : String) (l c : Nat) (rest : List Token) (tg : Tags)
        (bob : Option (List String)) (dlw : Bool) (ex : List Extension),
      jsCharAt v 0 = "-" →
      advanceAfterBlockEnd (some n)
          ⟨⟨⟨.blockEnd, v, l, c⟩ :: rest, tg⟩, Option.none, bob, dlw, ex⟩ =
        (.ok (some ⟨.blockEnd, v, l, c⟩), ⟨⟨rest, tg⟩, Option.none, bob, true, ex⟩)) ∧
    (∀ (fuel : Nat) (v : String) (l c : Nat) (rest : List Token) (tg : Tags)
        (bob : Option (List String)) (ex : List Extension) (buf : List Node) (s2 : PState),
      parseNodes fuel
          ⟨⟨(streamNext false rest).2, tg⟩, (streamNext false rest).1, bob, false, ex⟩ =
        (.ok buf, s2) →
      parseNodes (fuel + 1) ⟨⟨⟨.data, v, l, c⟩ :: rest, tg⟩, Option.none, bob, true, ex⟩ =
        (.ok (Node.Output l c
          [Node.TemplateData l c
            (if dropTrailingMarker (streamNext false rest).1 tg
             then stripTrailingWs (stripLeadingWs v) else stripLeadingWs v)] :: buf), s2)) := by
  constructor
  · intro n v l c rest tg bob dlw ex h
    have e : advanceAfterBlockEnd (some n)
        ⟨⟨⟨.blockEnd, v, l, c⟩ :: rest, tg⟩, Option.none, bob, dlw, ex⟩ =
        (if jsCharAt v 0 = "-" then
          (modifyS (fun s => { s with dropLeadingWhitespace := true }) >>= fun _ =>
            pure (some (⟨.blockEnd, v, l, c⟩ : Token)))
         else ((pure () : PM Unit) >>= fun _ =>
            pure (some (⟨.blockEnd, v, l, c⟩ : Token))))
          ⟨⟨rest, tg⟩, Option.none, bob, dlw, ex⟩ := rfl
    rw [e, if_pos h]
    rfl
  · intro fuel v l c rest tg bob ex buf s2 h
    rw [parseNodes_data_run, pm_bind_apply, h]

/-- Witness for `c4_whitespace_latch`: a BLOCK_END valued `-%\x7d` sets
the latch, and the DATA token `"  hi"` is emitted as `"hi"` with the
latch cleared. -/
theorem c4_whitespace_latch_witness :
    advanceAfterBlockEnd (some "if")
        ⟨⟨[tk .blockEnd "-%\x7d" 0 5], {}⟩, Option.none, Option.none, false, []⟩ =
      (.ok (some (tk .blockEnd "-%\x7d" 0 5)),
       ⟨⟨[], {}⟩, Option.none, Option.none, true, []⟩) ∧
    parseNodes 8 stW4c =
      (.ok [Node.Output 0 0 [Node.TemplateData 0 0 "hi"]],
       ⟨⟨[], {}⟩, Option.none, Option.none, false, []⟩) := by
  constructor
  · exact c4_whitespace_latch.1 "if" "-%\x7d" 0 5 [] {} Option.none false [] (by decide)
  · exact c4_whitespace_latch.2 7 "  hi" 0 0 [] {} Option.none [] []
      ⟨⟨[], {}⟩, Option.none, Option.none, false, []⟩ rfl

/-- Claim C5: every token returned by `nextToken` with whitespace not
requested has a type other than WHITESPACE (first conjunct); a buffered
(pushed-back) whitespace token is dropped silently, the call behaving
exactly as with an empty buffer (second conjunct). -/
theorem c5_no_whitespace :
    (∀ (s : PState) (t : Token) (s' : PState),
        nextToken false s = (.ok (some t), s') → t.type ≠ .whitespace) ∧
    (∀ (s : PState) (w : Token), s.peeked = some w → w.type = .whitespace →
        nextToken false s = nextToken false { s with peeked := Option.none }) := by
  constructor
  · intro s t s' h
    obtain ⟨⟨list, tg⟩, pk, bob, dlw, ex⟩ := s
    rcases pk with _ | p
    · rw [nextToken_false_nopeek] at h
      simp only [Prod.mk.injEq, Except.ok.injEq] at h
      exact streamNext_no_ws _ _ h.1
    · by_cases hw : p.type = .whitespace
      · rw [nextToken_false_peeked_ws _ _ _ _ _ _ hw] at h
        simp only [Prod.mk.injEq, Except.ok.injEq] at h
        exact streamNext_no_ws _ _ h.1
      · rw [nextToken_false_peeked_nws _ _ _ _ _ _ hw] at h
        simp only [Prod.mk.injEq, Except.ok.injEq, Option.some.injEq] at h
        exact h.1 ▸ hw
  · intro s w hpk hw
    obtain ⟨⟨list, tg⟩, pk, bob, dlw, ex⟩ := s
    simp only at hpk
    subst hpk
    rw [nextToken_false_peeked_ws _ _ _ _ _ _ hw, nextToken_false_nopeek]

/-- Witness for `c5_no_whitespace` at a concrete state: the returned
symbol token is not whitespace, and a buffered whitespace token is
dropped silently. -/
theorem c5_no_whitespace_witness :
    Token.type (tk .symbol "a" 0 0) ≠ .whitespace ∧
    nextToken false ⟨⟨[tk .symbol "a" 0 0], {}⟩, some (tk .whitespace " " 0 0),
        Option.none, false, []⟩ =
      nextToken false ⟨⟨[tk .symbol "a" 0 0], {}⟩, Option.none, Option.none, false, []⟩ := by
  constructor
  · exact c5_no_whitespace.1 (mkSt [tk .symbol "a" 0 0]) (tk .symbol "a" 0 0)
      ⟨⟨[], {}⟩, Option.none, Option.none, false, []⟩ rfl
  · exact c5_no_whitespace.2 ⟨⟨[tk .symbol "a" 0 0], {}⟩, some (tk .whitespace " " 0 0),
      Option.none, false, []⟩ (tk .whitespace " " 0 0) rfl rfl

/-- Claim C6: after `pushToken tok` on a parser whose pushback slot is
empty, both `peekToken` and `nextToken` with whitespace preserved
return exactly the same token `tok` (`peekToken` leaves it buffered,
`nextToken` consumes it). -/
theorem c6_push_peek (s : PState) (t : Token) (h : s.peeked = Option.none) :
    pushToken (some t) s = (.ok (), { s with peeked := some t }) ∧
    peekToken { s with peeked := some t } = (.ok (some t), { s with peeked := some t }) ∧
    nextToken true { s with peeked := some t } =
      (.ok (some t), { s with peeked := Option.none }) := by
  obtain ⟨tks, pk, bob, dlw, ex⟩ := s
  simp only at h
  subst h
  exact ⟨rfl, rfl, rfl⟩

/-- Witness for `c6_push_peek` at a concrete token and state. -/
theorem c6_push_peek_witness :
    pushToken (some (tk .symbol "x" 1 2)) (mkSt []) =
      (.ok (), { mkSt [] with peeked := some (tk .symbol "x" 1 2) }) ∧
    peekToken { mkSt [] with peeked := some (tk .symbol "x" 1 2) } =
      (.ok (some (tk .symbol "x" 1 2)), { mkSt [] with peeked := some (tk .symbol "x" 1 2) }) ∧
    nextToken true { mkSt [] with peeked := some (tk .symbol "x" 1 2) } =
      (.ok (some (tk .symbol "x" 1 2)), { mkSt [] with peeked := Option.none }) :=
  c6_push_peek (mkSt []) (tk .symbol "x" 1 2) rfl

/-- Claim C7, counterexample: `pushToken` on a full slot throws a bare
JS `Error` — not a `TemplateError` with coordinates — and its message
reads `pushToken: can only push one token on between reads`, which is
not the claimed `pushToken: can only push one token between reads`. -/
theorem c7_counterexample :
    pushToken (some (tk .symbol "z" 0 1)) stFull =
      (.error (.plain "pushToken: can only push one token on between reads"), stFull) ∧
    PErr.isTemplate (.plain "pushToken: can only push one token on between reads") = false ∧
    "pushToken: can only push one token on between reads" ≠
      "pushToken: can only push one token between reads" :=
  ⟨rfl, rfl, by decide⟩

/-- Claim C7, amended: calling `pushToken` while the one-slot buffer
already holds a token throws a plain `Error` (not a `TemplateError`,
with no line or column) whose message is
`pushToken: can only push one token on between reads`, leaving the
state unchanged. -/
theorem c7_pushToken_full (s : PState) (tok : Option Token) (h : s.peeked.isSome = true) :
    pushToken tok s =
      (.error (.plain "pushToken: can only push one token on between reads"), s) := by
  obtain ⟨tks, pk, bob, dlw, ex⟩ := s
  rcases pk with _ | p
  · simp at h
  · rfl

/-- Witness for `c7_pushToken_full` at a concrete full state. -/
theorem c7_pushToken_full_witness :
    pushToken (some (tk .symbol "z" 0 1)) stFull =
      (.error (.plain "pushToken: can only push one token on between reads"), stFull) :=
  c7_pushToken_full stFull (some (tk .symbol "z" 0 1)) rfl

/-- Claim C8, counterexample: on an exhausted stream `expect` does not
raise the claimed syntactic error `unexpected end of file`; the source
reads `.type` of the `null` returned by `nextToken`, a runtime
TypeError, which is not a `TemplateError` at all. -/
theorem c8_counterexample :
    expect .symbol (mkSt []) =
      (.error (.typeError "cannot read type of null"), mkSt []) ∧
    PErr.isTemplate (.typeError "cannot read type of null") = false :=
  ⟨rfl, rfl⟩

/-- Claim C8, amended: `expect ty` consumes and returns the next token
when its type is `ty` (first conjunct); on a type mismatch it fails
with a `TemplateError` whose message is `expected <ty>, got <actual>`
at the offending token position, 1-based (second conjunct); on an
exhausted stream it crashes with a runtime TypeError from reading
`.type` of `null`, not with `unexpected end of file` (third
conjunct). -/
theorem c8_expect :
    (∀ (ty : TokenType) (v : String) (l c : Nat) (rest : List Token) (tg : Tags)
        (bob : Option (List String)) (dlw : Bool) (ex : List Extension),
      ty ≠ .whitespace →
      expect ty ⟨⟨⟨ty, v, l, c⟩ :: rest, tg⟩, Option.none, bob, dlw, ex⟩ =
        (.ok ⟨ty, v, l, c⟩, ⟨⟨rest, tg⟩, Option.none, bob, dlw, ex⟩)) ∧
    (∀ (ty tt : TokenType) (v : String) (l c : Nat) (rest : List Token) (tg : Tags)
        (bob : Option (List String)) (dlw : Bool) (ex : List Extension),
      tt ≠ .whitespace → tt ≠ ty →
      expect ty ⟨⟨⟨tt, v, l, c⟩ :: rest, tg⟩, Option.none, bob, dlw, ex⟩ =
        (.error (.template ("expected " ++ ty.str ++ ", got " ++ tt.str)
          (some (l + 1)) (some (c + 1))),
         ⟨⟨rest, tg⟩, Option.none, bob, dlw, ex⟩)) ∧
    (∀ (ty : TokenType) (tg : Tags) (bob : Option (List String)) (dlw : Bool)
        (ex : List Extension),
      expect ty ⟨⟨[], tg⟩, Option.none, bob, dlw, ex⟩ =
        (.error (.typeError "cannot read type of null"),
         ⟨⟨[], tg⟩, Option.none, bob, dlw, ex⟩)) := by
  refine ⟨?_, ?_, ?_⟩
  · intro ty v l c rest tg bob dlw ex h
    cases ty <;> first | exact absurd rfl h | rfl
  · intro ty tt v l c rest tg bob dlw ex hws hne
    cases tt <;> cases ty <;> first | exact absurd rfl hws | exact absurd rfl hne | rfl
  · intro ty tg bob dlw ex
    rfl

/-- Witness for `c8_expect`: a matching symbol token is consumed and
returned; a mismatching INT token yields the 1-based positioned
message. -/
theorem c8_expect_witness :
    expect .symbol (mkSt [tk .symbol "a" 2 3]) =
      (.ok (tk .symbol "a" 2 3), mkSt []) ∧
    expect .symbol (mkSt [tk .int "7" 2 3]) =
      (.error (.template "expected symbol, got int" (some 3) (some 4)), mkSt []) := by
  constructor
  · exact c8_expect.1 .symbol "a" 2 3 [] {} Option.none false [] (by decide)
  · exact c8_expect.2.1 .symbol .int "7" 2 3 [] {} Option.none false [] (by decide) (by decide)

/-- Claim C9, counterexample: parsing `\x7b% from "t" import _x %\x7d`
does fail at the offending name, but the message carries a
`parseFrom: ` prefix, so it is not the claimed bare
`names starting with an underscore cannot be imported`. -/
theorem c9_counterexample :
    (parseAsRoot 60 (mkSt tsC9)).1 =
      .error (.template "parseFrom: names starting with an underscore cannot be imported"
        (some 1) (some 20)) ∧
    "parseFrom: names starting with an underscore cannot be imported" ≠
      "names starting with an underscore cannot be imported" :=
  ⟨rfl, by decide⟩

/-- Claim C9, amended: in a `from ... import ...` statement an imported
name beginning with an underscore is rejected: parsing
`\x7b% from "t" import _x %\x7d` fails with the TemplateError
`parseFrom: names starting with an underscore cannot be imported`,
reported (1-based) at the position of the name token `_x`, which sits
at line 0, column 19. -/
theorem c9_underscore :
    (parseAsRoot 60 (mkSt tsC9)).1 =
      .error (.template "parseFrom: names starting with an underscore cannot be imported"
        (some (0 + 1)) (some (19 + 1))) := rfl

/-- Claim C10: in a `for` block the first loop target must parse to a
`Symbol`: an INT literal, a string, or an aggregate as first target
each fail with `parseFor: variable name expected for loop` (first
three conjuncts), while a non-symbol target after a comma is accepted
unchecked — `for x, 1 in d` yields the loop variable
`Array[Symbol x, Literal 1]` (last conjunct). -/
theorem c10_for_target :
    (parseAsRoot 60 (mkSt tsC10a)).1 =
      .error (.template "parseFor: variable name expected for loop" (some 1) (some 10)) ∧
    (parseAsRoot 60 (mkSt tsC10b)).1 =
      .error (.template "parseFor: variable name expected for loop" (some 1) (some 12)) ∧
    (parseAsRoot 60 (mkSt tsC10c)).1 =
      .error (.template "parseFor: variable name expected for loop" (some 1) (some 12)) ∧
    (parseAsRoot 60 (mkSt tsC10d)).1 =
      .ok (Node.Root 0 0
        [Node.For 0 3
          (Node.Array 0 7 [Node.Symbol 0 7 "x", Node.Literal 0 10 (.int 1)])
          (Node.Symbol 0 15 "d") (Node.NodeList 0 0 []) Node.jsNull]) :=
  ⟨rfl, rfl, rfl, rfl⟩

end Denjucks
